import Mathlib

/-!
Verification of the anime-quote-analyzer backend.

This file gives a shallow embedding, in Lean 4, of the pure core of the
Python backend (`src/backend/grammar_detector.py`, `src/backend/jlpt_classifier.py`,
`src/backend/analyzer.py`, `src/backend/translator.py`) and proves or refutes
the behavioural claims about it.

Modelling conventions:
- Python dicts used as records become structures; keys that may be absent
  become `Option` fields.
- Python strings are Lean `String`s; `x in text` becomes the executable
  substring test `strContains`.
- The regexes used by the detector are of two fixed shapes: a plain literal
  (or a two-way character class such as `[てで]る`, expanded to the
  disjunction of its instances), and `[JAPANESE-RANGES]+SUFFIX` as passed to
  `extract_example`; the latter family is embedded by `findMatch` below,
  which implements the leftmost, greedy-with-backtracking semantics of
  Python `re.search` for exactly that shape.
- Functions that can raise return `Except String α`; the module-level data
  loaded from JSON files at runtime (JLPT tier lists, the static vocabulary
  dictionary, the grammar-pattern data file) and the network services
  (DeepL, Jisho) are passed in explicitly as parameters, since the data
  files and the network are outside the program text.
-/

/-- Python `needle in haystack` on strings: substring test. -/
def strContains (t pat : String) : Bool :=
  let rec go : List Char → Bool
    | [] => pat.data.isPrefixOf []
    | c :: cs => pat.data.isPrefixOf (c :: cs) || go cs
  go t.data

/-- Python `str.lower()`, character-wise. -/
def pyLower (s : String) : String := String.mk (s.data.map Char.toLower)

/-- A token produced by the MeCab tokenizer adapter (`analyzer.tokenize`). -/
structure Token where
  surface : String
  reading : String
  partOfSpeech : String
  baseForm : String
  rawPos : String
  posDetails : List String
deriving Repr, DecidableEq

/-- A grammar-pattern dictionary as appended by `detect_patterns` /
`detect_particles`.  `exampleInSentence` and `pedagogicalNote` are `none`
for the entries whose Python dict omits those keys. -/
structure GrammarEntry where
  pattern : String
  description : String
  jlptLevel : String
  example' : String
  exampleInSentence : Option String
  pedagogicalNote : Option String
deriving Repr, DecidableEq

/-- One record of the optional grammar-pattern data file read by
`load_grammar_patterns` (never consulted by `detect_patterns`). -/
structure GrammarPatternDef where
  pattern : String
  regex : String
  description : String
  jlptLevel : String
  example' : String
deriving Repr, DecidableEq

/-- The value part of one entry of the `particle_info` table in
`detect_particles`. -/
structure ParticleInfo where
  description : String
  jlptLevel : String
  example' : String
  pedagogicalNote : String
deriving Repr, DecidableEq

/-- The `particle_info` table of `detect_particles`, in source order. -/
def particle_info : List (String × ParticleInfo) := [
  ("は", ⟨"Marqueur de thème. Introduit le sujet principal dont on parle.", "N5", "私は学生です (Quant à moi, je suis étudiant)", "Indique le thème général de la phrase. Différent de が qui marque le sujet grammatical."⟩),
  ("が", ⟨"Marqueur de sujet grammatical. Identifie qui/quoi fait l\x27action.", "N5", "雨が降る (La pluie tombe)", "Insiste sur le sujet spécifique. Utilisé pour contraster ou répondre à \x27qui/quoi?\x27"⟩),
  ("を", ⟨"Marqueur d\x27objet direct. Indique ce qui subit l\x27action du verbe.", "N5", "本を読む (Lire un livre)", "Toujours placé après l\x27objet direct et avant le verbe."⟩),
  ("に", ⟨"Marqueur de destination, temps, cible ou existence.", "N5", "学校に行く (Aller à l\x27école), 3時に (À 3h)", "Usages multiples: direction (vers), temps (à), cible (à/pour), existence (se trouver à)."⟩),
  ("で", ⟨"Marqueur de moyen, lieu d\x27action, cause ou limite.", "N5", "車で行く (Y aller en voiture), 図書館で (À la bibliothèque)", "Indique le moyen (avec/en), le lieu de l\x27action (à/dans), ou la cause (à cause de)."⟩),
  ("も", ⟨"Particule d\x27inclusion. Signifie \x27aussi\x27 ou \x27même\x27.", "N5", "私も学生です (Moi aussi je suis étudiant)", "Remplace は, が, を pour ajouter la nuance \x27aussi\x27. Peut marquer l\x27emphase avec des nombres."⟩),
  ("の", ⟨"Marqueur de possession, appartenance ou nominalisation.", "N5", "私の本 (Mon livre), 食べるの (Le fait de manger)", "Relie deux noms (possession) ou transforme une proposition en nom (nominalisation)."⟩),
  ("から", ⟨"Indique le point de départ (spatial/temporel) ou la cause.", "N5", "東京から (Depuis Tokyo), 忙しいから (Parce que je suis occupé)", "Origine dans l\x27espace/temps (\x27depuis\x27), ou raison/cause (\x27parce que\x27, \x27car\x27)."⟩),
  ("まで", ⟨"Indique la limite ou le point d\x27arrivée (spatial/temporel).", "N5", "駅まで (Jusqu\x27à la gare), 5時まで (Jusqu\x27à 5h)", "Souvent combiné avec から pour exprimer \x27de...à\x27. Marque la fin d\x27une période/distance."⟩),
  ("と", ⟨"Conjonction de coordination (\x27et\x27) ou citation (\x27que\x27).", "N5", "猫と犬 (Chats et chiens), 彼は行くと言った (Il a dit qu\x27il irait)", "Relie des noms (\x27et\x27), introduit une citation directe, ou marque l\x27accompagnement (\x27avec\x27)."⟩),
  ("や", ⟨"Conjonction d\x27énumération partielle. \x27Et\x27, \x27ou\x27 (liste non exhaustive).", "N4", "りんごやバナナ (Pommes, bananes, etc.)", "Énumération ouverte (implique qu\x27il y a d\x27autres éléments). Moins formel que と."⟩),
  ("か", ⟨"Marqueur interrogatif ou de choix.", "N5", "行きますか (Allez-vous?), コーヒーかお茶 (Café ou thé)", "En fin de phrase: question. Entre noms: choix (\x27ou\x27). Ton monte à l\x27oral."⟩),
  ("ね", ⟨"Particule finale de confirmation ou accord.", "N5", "いい天気ですね (Beau temps, n\x27est-ce pas?)", "Cherche l\x27accord de l\x27interlocuteur. Adoucit la phrase. Ton chaleureux."⟩),
  ("よ", ⟨"Particule finale d\x27affirmation ou nouvelle information.", "N5", "雨が降るよ (Il va pleuvoir, tu sais)", "Insiste sur l\x27information donnée. Ton assertif. Informe l\x27interlocuteur de quelque chose."⟩),
  ("よね", ⟨"Combinaison de よ + ね. Confirmation avec attente d\x27accord.", "N4", "美味しいよね (C\x27est bon, hein?)", "Affirme tout en cherchant la confirmation. Plus doux que よ seul. Très courant à l\x27oral."⟩),
  ("って", ⟨"Particule de citation informelle ou de reformulation.", "N4", "田中さんって誰? (Tanaka, c\x27est qui?), 行くって言った (J\x27ai dit que j\x27irais)", "Contraction informelle de という. Citation indirecte, définition, ou reformulation. Ton décontracté."⟩),
  ("だけ", ⟨"Particule restrictive. Signifie \x27seulement\x27, \x27uniquement\x27.", "N4", "これだけ (Seulement ça)", "Limite à un élément spécifique. Peut exprimer une limite minimale ou un sentiment d\x27insuffisance."⟩),
  ("しか", ⟨"Particule restrictive négative. \x27Seulement\x27 (avec négation obligatoire).", "N4", "100円しかない (Je n\x27ai que 100 yens)", "Toujours suivi d\x27une forme négative. Nuance de regret ou d\x27insuffisance. Plus fort que だけ."⟩),
  ("など", ⟨"Particule d\x27énumération exemplative. \x27Etc.\x27, \x27et cetera\x27, \x27par exemple\x27.", "N4", "本など (Des livres et autres choses)", "Suggère que les éléments mentionnés sont des exemples. Liste non exhaustive. Ton modeste."⟩),
  ("さ", ⟨"Particule finale de remplissage ou d\x27affirmation décontractée.", "N3", "そうだよさ (C\x27est comme ça, tu vois)", "Marque un ton décontracté, familier. Remplissage conversationnel. Surtout utilisé par les hommes."⟩),
  ("ねえ", ⟨"Particule d\x27interpellation ou d\x27insistance.", "N4", "ねえ、聞いて (Hé, écoute)", "Attire l\x27attention de l\x27interlocuteur. Ton amical ou insistant selon le contexte."⟩),
  ("わ", ⟨"Particule finale d\x27affirmation douce (surtout féminin).", "N3", "行くわ (J\x27y vais)", "Marque un ton doux, souvent associé au langage féminin (Kansai ou Tokyo ancien). Affirmation légère."⟩),
  ("ぞ", ⟨"Particule finale d\x27affirmation forte (masculin).", "N3", "行くぞ (On y va!)", "Ton viril, assertif. Utilisé principalement par les hommes. Marque détermination ou avertissement."⟩),
  ("ぜ", ⟨"Particule finale d\x27affirmation informelle (masculin).", "N3", "いいぜ (C\x27est bon)", "Ton décontracté, masculin. Affirmation avec confiance. Plus doux que ぞ."⟩)
]

/-- Keyed lookup in `particle_info` (`surface in particle_info` /
`particle_info[surface]`; keys are distinct, so first match suffices). -/
def lookupParticle (s : String) : Option ParticleInfo :=
  (particle_info.find? (fun p => p.1 == s)).map (·.2)

/-- The grammar entry built for one particle found during the token pass of
`detect_particles`. -/
def mkParticleEntry (surface : String) (info : ParticleInfo) (text : String) : GrammarEntry :=
  { pattern := surface
    description := info.description
    jlptLevel := info.jlptLevel
    example' := info.example'
    exampleInSentence := some (if strContains text surface then "..." ++ surface ++ "..." else "")
    pedagogicalNote := some info.pedagogicalNote }

/-- The grammar entry built by the combined-particle (よね) special case of
`detect_particles`; there `exampleInSentence` is the literal "よね". -/
def mkYoneEntry (info : ParticleInfo) : GrammarEntry :=
  { pattern := "よね"
    description := info.description
    jlptLevel := info.jlptLevel
    example' := info.example'
    exampleInSentence := some "よね"
    pedagogicalNote := some info.pedagogicalNote }

/-- Is the part of speech of a token a particle, per `detect_particles`:
`"助詞" in pos or "particle" in pos.lower()`. -/
def isParticlePos (pos : String) : Bool :=
  strContains pos "助詞" || strContains (pyLower pos) "particle"

/-- The token loop of `detect_particles`, threading the accumulated
(`particles_found`, `seen_particles`) state. -/
def particleStep (text : String) (acc : List GrammarEntry × List String) (token : Token) :
    List GrammarEntry × List String :=
  let found := acc.1
  let seen := acc.2
  let surface := token.surface
  let pos := token.partOfSpeech
  if isParticlePos pos then
    match lookupParticle surface with
    | some info =>
        if !(seen.contains surface) then
          (found ++ [mkParticleEntry surface info text], seen ++ [surface])
        else acc
    | none => acc
  else acc

/-- `detect_particles(tokens, text)` from `grammar_detector.py`: the token
pass over `particle_info`, then the combined-particle よね override that
emits the combined form and retracts standalone よ / ね entries. -/
def detect_particles (tokens : List Token) (text : String) : List GrammarEntry :=
  let acc := tokens.foldl (particleStep text) ([], [])
  let found := acc.1
  let seen := acc.2
  if strContains text "よね" && !(seen.contains "よね") then
    match lookupParticle "よね" with
    | some info =>
        let found := found ++ [mkYoneEntry info]
        found.filter (fun p => !(p.pattern == "よ") && !(p.pattern == "ね"))
    | none => found
  else found

/-- Membership in the Japanese-script character class
`[぀-ゟ゠-ヿ一-龯]` used by the `extract_example`
regexes. -/
def isJapaneseScriptChar (c : Char) : Bool :=
  (0x3040 ≤ c.toNat && c.toNat ≤ 0x309F) ||
  (0x30A0 ≤ c.toNat && c.toNat ≤ 0x30FF) ||
  (0x4E00 ≤ c.toNat && c.toNat ≤ 0x9FAF)

/-- Length of the maximal run of Japanese-script-class characters at the
head of the list (the greedy `+` of the `extract_example` regexes). -/
def classRunLen : List Char → Nat
  | [] => 0
  | c :: cs => if isJapaneseScriptChar c then classRunLen cs + 1 else 0

/-- Does `suffix` (a sequence of single-character alternatives, e.g.
`[てで]る` as `[[て,で],[る]]`) match at the head of `cs`? -/
def suffixMatches : List (List Char) → List Char → Bool
  | [], _ => true
  | _ :: _, [] => false
  | alts :: rest, c :: cs => alts.contains c && suffixMatches rest cs

/-- Greedy backtracking of the `+` at one start position: the largest
`1 ≤ r ≤ m` such that `suffix` matches right after the first `r` run
characters. -/
def largestRun (suffix : List (List Char)) (tail : List Char) (m : Nat) : Option Nat :=
  (List.range m).reverse.findSome? fun i =>
    let r := i + 1
    if suffixMatches suffix (tail.drop r) then some r else none

/-- Leftmost match of `[JAPANESE-RANGES]+SUFFIX` in the character list,
starting at character index `s`; returns `(start, stop)` indices. -/
def findMatchAux (suffix : List (List Char)) : List Char → Nat → Option (Nat × Nat)
  | [], _ => none
  | c :: cs, s =>
      let m := classRunLen (c :: cs)
      match largestRun suffix (c :: cs) m with
      | some r => some (s, s + r + suffix.length)
      | none => findMatchAux suffix cs (s + 1)

/-- `re.search` for the `extract_example` regex family. -/
def findMatch (suffix : List (List Char)) (cs : List Char) : Option (Nat × Nat) :=
  findMatchAux suffix cs 0

/-- The whitespace stripped by Python `str.strip()` (ASCII whitespace plus
the ideographic space, the ones that can occur here). -/
def pyIsSpace (c : Char) : Bool :=
  c == ' ' || c == '\t' || c == '\n' || c == '\r' ||
  c.toNat == 0x0b || c.toNat == 0x0c || c.toNat == 0x3000

/-- Python `str.strip()`. -/
def pyStrip (cs : List Char) : List Char :=
  ((cs.dropWhile pyIsSpace).reverse.dropWhile pyIsSpace).reverse

/-- A literal suffix for `findMatch`: each character is its own
single-element alternative list. -/
def litSuffix (s : String) : List (List Char) := s.data.map (fun c => [c])

/-- The nested helper `extract_example(regex_pattern, text)` of
`detect_patterns`, for its regexes `[JAPANESE-RANGES]+SUFFIX`: slice a
window of up to 10 characters of left context and 2 of right context
around the first match, strip it, and fall back to the bare match when the
stripped window still exceeds 20 characters; empty string when there is no
match. -/
def extract_example (suffix : List (List Char)) (text : String) : String :=
  match findMatch suffix text.data with
  | some (st, en) =>
      let start := st - 10
      let stop := min text.data.length (en + 2)
      let excerpt := pyStrip ((text.data.drop start).take (stop - start))
      if excerpt.length ≤ 20 then String.mk excerpt
      else String.mk ((text.data.drop st).take (en - st))
  | none => ""

/-- The running state of `detect_patterns`: the `detected` list and the
`detected_patterns` claimed-identifier set (as a list). -/
structure DetState where
  detected : List GrammarEntry
  claimed : List String
deriving Repr, DecidableEq

/-- Append one entry and claim its identifier (each cascade branch of
`detect_patterns` does exactly this pair of mutations). -/
def emitEntry (st : DetState) (e : GrammarEntry) (id : String) : DetState :=
  ⟨st.detected ++ [e], st.claimed ++ [id]⟩

/-- The ～ませんか entry (polite invitation). -/
def entry_masenka : GrammarEntry :=
  ⟨"～ませんか", "Forme interrogative négative. Utilisée pour faire des invitations polies.", "N5", "行きませんか (voulez-vous aller?)", none, none⟩

/-- The ～なければならない entry (obligation). -/
def entry_obligation : GrammarEntry :=
  ⟨"～なければならない", "Exprime l\x27obligation. \x27Doit\x27 ou \x27il faut\x27.", "N4", "行かなければならない (je dois aller)", none, none⟩

/-- The ～てもいい entry (permission). -/
def entry_temoii : GrammarEntry :=
  ⟨"～てもいい", "Exprime la permission. \x27Peut\x27 ou \x27il est permis de\x27.", "N4", "食べてもいい (tu peux manger)", none, none⟩

/-- The ～てください entry (polite request). -/
def entry_tekudasai : GrammarEntry :=
  ⟨"～てください", "Forme de requête polie. \x27Veuillez faire\x27 ou \x27s\x27il vous plaît\x27.", "N5", "見てください (veuillez regarder)", none, none⟩

/-- The ～ています entry (polite progressive), with its contextual
excerpt. -/
def entry_teimasu (text : String) : GrammarEntry :=
  ⟨"～ています", "Forme progressive/continue polie. Actions en cours ou états.", "N5", "勉強しています (étudier)", some (extract_example (litSuffix "ています") text), some "Forme polie. Pour l\x27informel, utilisez ～ている ou la contraction ～てる."⟩

/-- The ～てる entry (contracted progressive), with its contextual excerpt
(regex `[JAPANESE-RANGES]+[てで]る`). -/
def entry_teru (text : String) : GrammarEntry :=
  ⟨"～てる", "Forme progressive contractée (informel). Même sens que ～ている.", "N5", "食べてる (en train de manger), 悩んでる (être préoccupé)", some (extract_example [['て', 'で'], ['る']] text), some "Contraction orale de ～ている. Utilisée entre amis/famille. Ton décontracté."⟩

/-- The ～ている entry (plain continuous / resultant state). -/
def entry_teiru : GrammarEntry :=
  ⟨"～ている", "Exprime un état résultant ou une action en cours (forme informelle).", "N5", "知っている (savoir / connaître)", none, none⟩

/-- The ～ました entry (past polite). -/
def entry_mashita : GrammarEntry :=
  ⟨"～ました", "Forme polie du passé des verbes.", "N5", "行きました (suis allé)", none, none⟩

/-- The ～ません entry (negative polite). -/
def entry_masen : GrammarEntry :=
  ⟨"～ません", "Forme négative polie des verbes.", "N5", "行きません (ne vais pas)", none, none⟩

/-- The ～ます entry (plain polite). -/
def entry_masu : GrammarEntry :=
  ⟨"～ます", "Forme polie présent/futur des verbes.", "N5", "行きます (aller)", none, none⟩

/-- The ～でした entry (past copula). -/
def entry_deshita : GrammarEntry :=
  ⟨"～でした", "Copule polie au passé.", "N5", "学生でした (étais étudiant)", none, none⟩

/-- The ～です entry (plain copula). -/
def entry_desu : GrammarEntry :=
  ⟨"～です", "Copule polie. Utilisée pour exprimer \x27être\x27.", "N5", "学生です (être étudiant)", none, none⟩

/-- The ～たい entry (desiderative). -/
def entry_tai : GrammarEntry :=
  ⟨"～たい", "Forme du désir. Exprime \x27vouloir faire quelque chose\x27.", "N5", "食べたい (vouloir manger)", none, none⟩

/-- The ～た entry (plain past), with its contextual excerpt. -/
def entry_ta (text : String) : GrammarEntry :=
  ⟨"～た", "Forme passée informelle des verbes.", "N5", "食べた (j\x27ai mangé)", some (extract_example (litSuffix "た") text), some "Marque le passé ou un état accompli. Ton neutre/informel. Pour la politesse, utilisez ～ました."⟩

/-- The ～ない entry (plain negative), with its contextual excerpt. -/
def entry_nai (text : String) : GrammarEntry :=
  ⟨"～ない", "Forme négative des verbes.", "N5", "行かない (ne pas aller)", some (extract_example (litSuffix "ない") text), some "Négation informelle. Pour la politesse, utilisez ～ません. Souvent en fin de phrase."⟩

/-- The ～でしょう entry (conjecture). -/
def entry_deshou : GrammarEntry :=
  ⟨"～でしょう", "Marqueur de probabilité/conjecture. Exprime \x27probablement\x27 ou \x27je pense\x27.", "N4", "雨でしょう (probablement de la pluie)", none, none⟩

/-- The ～そうです entry (hearsay / appearance). -/
def entry_soudesu : GrammarEntry :=
  ⟨"～そうです", "Exprime l\x27ouï-dire ou l\x27apparence. \x27On dit que\x27 ou \x27Il semble que\x27.", "N4", "美味しそうです (ça a l\x27air délicieux)", none, none⟩

/-- The ～まで / ～までに entry (temporal limit). -/
def entry_made : GrammarEntry :=
  ⟨"～まで / ～までに", "Exprime une limite temporelle. \x27Jusqu\x27à\x27 ou \x27d\x27ici\x27.", "N5", "授業が終わるまでに (d\x27ici la fin du cours)", none, none⟩

/-- The ～ように entry (purpose / manner), with its contextual excerpt. -/
def entry_youni (text : String) : GrammarEntry :=
  ⟨"～ように", "Exprime le but ou la manière. \x27Afin que\x27 ou \x27de manière à\x27.", "N3", "忘れないように (afin de ne pas oublier)", some (extract_example (litSuffix "ように") text), some "Exprime le but (\x27pour que\x27) ou la manière (\x27de manière à\x27). Souvent suivi d\x27un verbe."⟩

/-- The generic conjunctive ～て entry, with its contextual excerpt. -/
def entry_te (text : String) : GrammarEntry :=
  ⟨"～て", "Forme conjonctive. Utilisée pour relier des actions ou des états.", "N5", "食べて寝る (manger et dormir)", some (extract_example (litSuffix "て") text), some "Forme de liaison. Connecte des phrases, exprime la succession d\x27actions, ou précède des auxiliaires."⟩

/-- The ～する entry (light verb). -/
def entry_suru : GrammarEntry :=
  ⟨"～する", "Verbe \x27faire\x27. Souvent utilisé avec des noms verbaux (勉強する, 提出する).", "N5", "勉強する (étudier)", none, none⟩

/-- Cascade step: ～ませんか (polite invitation), checked before ～ません. -/
def step_masenka (text : String) (st : DetState) : DetState :=
  if strContains text "ませんか" then emitEntry st entry_masenka "ませんか" else st

/-- Cascade step: ～なければならない (obligation), regex `なければならない|なきゃ`,
checked before ～ない. -/
def step_obligation (text : String) (st : DetState) : DetState :=
  if strContains text "なければならない" || strContains text "なきゃ" then
    emitEntry st entry_obligation "obligation"
  else st

/-- Cascade step: ～てもいい (permission), regex `[てで]もいい`, checked before ～て. -/
def step_temoii (text : String) (st : DetState) : DetState :=
  if strContains text "てもいい" || strContains text "でもいい" then
    emitEntry st entry_temoii "permission"
  else st

/-- Cascade step: ～てください (polite request), regex `[てで]ください`, checked
before ～て. -/
def step_tekudasai (text : String) (st : DetState) : DetState :=
  if strContains text "てください" || strContains text "でください" then
    emitEntry st entry_tekudasai "request"
  else st

/-- The raw condition of the ～てる branch: regex `[てで]る` present and
`[てで]ます` absent. -/
def teruCond (text : String) : Bool :=
  (strContains text "てる" || strContains text "でる") &&
  !(strContains text "てます" || strContains text "でます")

/-- Cascade step (if/elif/elif chain): ～ています, else contracted ～てる,
else plain ～ている — mutually exclusive alternatives in descending
specificity. -/
def step_teimasu_group (text : String) (st : DetState) : DetState :=
  if strContains text "ています" then emitEntry st (entry_teimasu text) "ています"
  else if teruCond text then emitEntry st (entry_teru text) "てる"
  else if strContains text "ている" then emitEntry st entry_teiru "ている"
  else st

/-- Cascade step (if/elif/elif chain): ～ました, else ～ません (unless the
invitation form claimed), else ～ます (unless past/negative claimed). -/
def step_mashita_group (text : String) (st : DetState) : DetState :=
  if strContains text "ました" then emitEntry st entry_mashita "ました"
  else if strContains text "ません" && !(st.claimed.contains "ませんか") then
    emitEntry st entry_masen "ません"
  else if strContains text "ます" && !(st.claimed.contains "ました") && !(st.claimed.contains "ません") then
    emitEntry st entry_masu "ます"
  else st

/-- Cascade step (if/elif chain): ～でした before ～です. -/
def step_deshita_group (text : String) (st : DetState) : DetState :=
  if strContains text "でした" then emitEntry st entry_deshita "でした"
  else if strContains text "です" then emitEntry st entry_desu "です"
  else st

/-- Cascade step (if/elif chain): ～たい before plain past ～た (which also
defers to ～ました). -/
def step_tai_group (text : String) (st : DetState) : DetState :=
  if strContains text "たい" then emitEntry st entry_tai "たい"
  else if strContains text "た" && !(st.claimed.contains "ました") && !(st.claimed.contains "たい") then
    emitEntry st (entry_ta text) "た"
  else st

/-- Cascade step: ～ない, suppressed when the obligation construction
claimed. -/
def step_nai (text : String) (st : DetState) : DetState :=
  if strContains text "ない" && !(st.claimed.contains "obligation") then
    emitEntry st (entry_nai text) "ない"
  else st

/-- Cascade step: ～でしょう (conjecture). -/
def step_deshou (text : String) (st : DetState) : DetState :=
  if strContains text "でしょう" then emitEntry st entry_deshou "でしょう" else st

/-- Cascade step: ～そうです (hearsay / appearance). -/
def step_soudesu (text : String) (st : DetState) : DetState :=
  if strContains text "そうです" then emitEntry st entry_soudesu "そうです" else st

/-- Cascade step: ～まで / ～までに (temporal limit). -/
def step_made (text : String) (st : DetState) : DetState :=
  if strContains text "まで" then emitEntry st entry_made "まで" else st

/-- Cascade step: ～ように (purpose / manner). -/
def step_youni (text : String) (st : DetState) : DetState :=
  if strContains text "ように" then emitEntry st (entry_youni text) "ように" else st

/-- Cascade step: generic conjunctive ～て, suppressed when any of the more
specific て-forms (request, permission, ～ています, ～ている, ～てる)
claimed. -/
def step_te (text : String) (st : DetState) : DetState :=
  if strContains text "て" && !(st.claimed.contains "request") && !(st.claimed.contains "permission") && !(st.claimed.contains "ています") && !(st.claimed.contains "ている") && !(st.claimed.contains "てる") then
    emitEntry st (entry_te text) "て"
  else st

/-- Cascade step: ～する (light verb). -/
def step_suru (text : String) (st : DetState) : DetState :=
  if strContains text "する" then emitEntry st entry_suru "する" else st

/-- The particle merge of `detect_patterns`: append each particle entry
whose pattern has not yet been claimed, claiming it. -/
def step_particles (tokens : List Token) (text : String) (st : DetState) : DetState :=
  (detect_particles tokens text).foldl
    (fun acc particle =>
      if !(acc.claimed.contains particle.pattern) then
        ⟨acc.detected ++ [particle], acc.claimed ++ [particle.pattern]⟩
      else acc)
    st

/-- The `Phrase simple` fallback entry of `detect_patterns`. -/
def fallbackEntry : GrammarEntry :=
  ⟨"Phrase simple", "Structure de phrase déclarative simple.", "N5", "これは本です (Ceci est un livre)", none, none⟩

/-- The final fallback of `detect_patterns`: when nothing was emitted, emit
the single `Phrase simple` entry. -/
def step_fallback (st : DetState) : DetState :=
  if st.detected.isEmpty then ⟨st.detected ++ [fallbackEntry], st.claimed⟩ else st

/-- The text-driven rule cascade of `detect_patterns`, in source order. -/
def runCascade (text : String) : DetState :=
  step_suru text (step_te text (step_youni text (step_made text (step_soudesu text
    (step_deshou text (step_nai text (step_tai_group text (step_deshita_group text
      (step_mashita_group text (step_teimasu_group text (step_tekudasai text
        (step_temoii text (step_obligation text (step_masenka text ⟨[], []⟩))))))))))))))

/-- `detect_patterns(text, tokens)` from `grammar_detector.py`.  The first
parameter is the module-level `_grammar_patterns` data loaded by
`load_grammar_patterns`; the body of `detect_patterns` never reads it, which
the embedding makes visible by never using the parameter. -/
def detect_patterns (_grammar_patterns : List GrammarPatternDef)
    (text : String) (tokens : List Token) : List GrammarEntry :=
  (step_fallback (step_particles tokens text (runCascade text))).detected

/-- The JLPT level names, in the order `classify_word` searches them and
the key set of the `level_counts` dict of `classify_sentence`. -/
def levelKeys : List String := ["N5", "N4", "N3", "N2", "N1", "Unknown"]

/-- `classify_word(word)` from `jlpt_classifier.py`.  `vocab_data` is the
tier-list mapping loaded by `load_jlpt_data` (a JSON data file, passed in
explicitly); levels are checked from easiest (N5) to hardest (N1) and the
first containing list wins, `Unknown` if none does. -/
def classify_word (vocab_data : String → List String) (word : String) : String :=
  if (vocab_data "N5").contains word then "N5"
  else if (vocab_data "N4").contains word then "N4"
  else if (vocab_data "N3").contains word then "N3"
  else if (vocab_data "N2").contains word then "N2"
  else if (vocab_data "N1").contains word then "N1"
  else "Unknown"

/-- CPython call binding for `classify_word`, whose def line is
`def classify_word(word: str) -> JLPTLevel:` — exactly one positional
parameter named `word` and no others.  A call is given as positional
arguments plus keyword arguments; any keyword other than `word`, or an
arity other than one, raises `TypeError`. -/
def call_classify_word (vocab_data : String → List String)
    (args : List String) (kwargs : List (String × String)) : Except String String :=
  if kwargs.any (fun p => !(p.1 == "word")) then
    .error "TypeError: classify_word() got an unexpected keyword argument"
  else if args.length + kwargs.length != 1 then
    .error "TypeError: classify_word() takes 1 argument"
  else
    match args, kwargs with
    | [w], [] => .ok (classify_word vocab_data w)
    | [], [(_, w)] => .ok (classify_word vocab_data w)
    | _, _ => .error "TypeError: classify_word() got multiple values for argument"

/-- A vocabulary dict as consumed by `classify_sentence`, which reads only
`vocab_entry.get("jlptLevel", "Unknown")`; `none` models an absent key. -/
structure VEntry where
  jlptLevel : Option String
deriving Repr, DecidableEq

/-- `vocab_entry.get("jlptLevel", "Unknown")`. -/
def levelOf (e : VEntry) : String := e.jlptLevel.getD "Unknown"

/-- The initial `level_counts` dict of `classify_sentence`. -/
def init_counts : List (String × Nat) :=
  [("N5", 0), ("N4", 0), ("N3", 0), ("N2", 0), ("N1", 0), ("Unknown", 0)]

/-- `level_counts[level] += 1`: increments the count when `level` is a key,
raises `KeyError` otherwise (Python dict indexing on a missing key). -/
def bumpCount (counts : List (String × Nat)) (level : String) :
    Except String (List (String × Nat)) :=
  if counts.any (fun p => p.1 == level) then
    .ok (counts.map (fun p => if p.1 == level then (p.1, p.2 + 1) else p))
  else .error ("KeyError: " ++ level)

/-- The tally loop of `classify_sentence`. -/
def tallyLevels (vocabulary : List VEntry) : Except String (List (String × Nat)) :=
  vocabulary.foldlM (fun counts e => bumpCount counts (levelOf e)) init_counts

/-- `level_weights[level]` of `classify_sentence`
(N1=5, N2=4, N3=3, N4=2, N5=1, Unknown=0). -/
def levelWeight (level : String) : Nat :=
  if level == "N1" then 5
  else if level == "N2" then 4
  else if level == "N3" then 3
  else if level == "N4" then 2
  else if level == "N5" then 1
  else 0

/-- `level_counts[k]` once tallying is done (the key is always present). -/
def countOf (counts : List (String × Nat)) (k : String) : Nat :=
  ((counts.find? (fun p => p.1 == k)).map (·.2)).getD 0

/-- `classify_sentence(tokens, vocabulary)` from `jlpt_classifier.py`.
The Python float comparisons `average_weight >= w.0` (with
`average_weight = total_weight / total_words`) are modelled exactly as
`total_weight ≥ w * total_words`; for these small integer weights the two
agree except for astronomically long vocabularies where the IEEE quotient
could round across the threshold, a regime irrelevant to every claim. -/
def classify_sentence (tokens : List Token) (vocabulary : List VEntry) :
    Except String String :=
  match tallyLevels vocabulary with
  | .error e => .error e
  | .ok level_counts =>
      let sentence_length := tokens.length
      let total_weight := (level_counts.map (fun p => p.2 * levelWeight p.1)).sum
      let total_words := (level_counts.map (·.2)).sum
      if total_words == 0 then
        .ok (if sentence_length ≤ 8 then "N5"
             else if sentence_length ≤ 15 then "N4"
             else "N3")
      else if countOf level_counts "N1" > 0 then .ok "N1"
      else if countOf level_counts "N2" ≥ 2 || total_weight ≥ 4 * total_words then .ok "N2"
      else if countOf level_counts "N2" ≥ 1 || total_weight ≥ 3 * total_words then .ok "N3"
      else if total_weight ≥ 2 * total_words then .ok "N4"
      else .ok "N5"

/-- The content-word part-of-speech whitelist of `extract_vocabulary`. -/
def content_pos : List String := ["名詞", "動詞", "形容詞", "形状詞", "副詞"]

/-- The `skip_subcategories` list of `extract_vocabulary` (defined in the
source but never consulted by its loop). -/
def skip_subcategories : List String := ["助詞", "助動詞", "接続詞", "感動詞", "記号"]

/-- The proper-noun POS sub-tag indicators of `is_proper_noun`. -/
def proper_noun_indicators : List String := ["固有名詞", "人名", "地名", "組織名"]

/-- The all-katakana test of `is_proper_noun`: every character in the
katakana block or the long-vowel mark ー. -/
def isKatakanaChar (c : Char) : Bool :=
  (0x30A0 ≤ c.toNat && c.toNat ≤ 0x30FF) || c == 'ー'

/-- The katakana-loanword whitelist of `is_proper_noun` (a Python set
literal; the duplicate ノート collapses under membership). -/
def common_loanwords : List String := [
  "メッセージ", "パソコン", "テレビ", "メール", "データ", "システム",
  "プログラム", "コンピューター", "スマホ", "インターネット", "アプリ",
  "ニュース", "メモ", "ページ", "ノート",
  "ホテル", "レストラン", "コンビニ", "バス", "タクシー",
  "コーヒー", "ジュース", "ブラック", "パン", "デザート", "ミルク",
  "ティー", "ケーキ", "サラダ", "スープ", "カレー", "ラーメン",
  "ハンバーガー", "サンドイッチ", "ビール", "ワイン", "ウイスキー",
  "テスト", "ペン", "チョーク", "アルバイト", "クラス", "ノート",
  "アニメ", "ゲーム", "スポーツ", "ドラマ", "ミュージック", "コンサート",
  "メートル", "センチ", "ミリ", "キロ", "グラム", "リットル",
  "ショック", "ドア", "ピンク", "チャンス", "チーム", "バランス",
  "エネルギー", "ストレス", "リスク", "サービス", "プレゼント",
  "カード", "セット", "グループ", "レベル", "タイプ", "ポイント",
  "プラン", "ルール", "マナー", "スタイル", "イメージ", "センス"
]

/-- `is_proper_noun(token)` from `analyzer.py`: fine-grained POS sub-tag
indicators, then the main/raw POS tags, then the all-katakana heuristic
with the loanword whitelist. -/
def is_proper_noun (token : Token) : Bool :=
  let surface := token.surface
  let pos := token.partOfSpeech
  let posDetails := token.posDetails
  let rawPos := token.rawPos
  if proper_noun_indicators.any (fun ind => posDetails.any (fun d => strContains d ind)) then
    true
  else if strContains pos "固有名詞" || strContains pos "人名" || strContains pos "地名" then
    true
  else if strContains rawPos "固有名詞" || strContains rawPos "人名" || strContains rawPos "地名" then
    true
  else if decide (2 ≤ surface.data.length) && surface.data.all isKatakanaChar then
    if common_loanwords.contains surface then false else true
  else false

/-- One extracted vocabulary entry of `extract_vocabulary`. -/
structure VocabularyEntry where
  word : String
  baseForm : String
  reading : String
  meaning : String
  jlptLevel : String
deriving Repr, DecidableEq

/-- One iteration of the `extract_vocabulary` loop over the tokens;
`tr` is `translate_to_french(word, use_jisho=True)` as an oracle for the
translator service.  The JLPT lookup is the literal source call
`classify_word(word, base_form=word)`, bound by CPython call semantics. -/
def vocabStep (vocab_data : String → List String) (tr : String → String)
    (acc : List VocabularyEntry × List String) (token : Token) :
    Except String (List VocabularyEntry × List String) :=
  let (vocabulary, seen_words) := acc
  let pos := token.partOfSpeech
  let word := token.baseForm
  let reading := token.reading
  if !(content_pos.contains pos) then .ok acc
  else if is_proper_noun token then .ok acc
  else if seen_words.contains word then .ok acc
  else if decide (word.data.length < 2) && !(pos == "名詞") then .ok acc
  else
    let seen_words := seen_words ++ [word]
    match call_classify_word vocab_data [word] [("base_form", word)] with
    | .error e => .error e
    | .ok jlpt_level =>
        let meaning := tr word
        .ok (vocabulary ++ [⟨word, word, reading, meaning, jlpt_level⟩], seen_words)

/-- `extract_vocabulary(tokens)` from `analyzer.py`: filter to content
words, drop proper nouns, deduplicate by base form, drop length-1
non-nouns, classify and translate each survivor, and keep the first 10. -/
def extract_vocabulary (vocab_data : String → List String) (tr : String → String)
    (tokens : List Token) : Except String (List VocabularyEntry) :=
  match tokens.foldlM (vocabStep vocab_data tr) ([], []) with
  | .error e => .error e
  | .ok (vocabulary, _) => .ok (vocabulary.take 10)

/-- The `COMMON_WORDS_FR` dict literal of `translator.py`, in source
order.  The Python literal repeats a few keys (e.g. 見せる); dict
construction keeps the last binding, which `pyDictLookup` mirrors. -/
def COMMON_WORDS_FR : List (String × String) := [
  ("そう", "ainsi, comme ça, de cette manière"),
  ("もう", "déjà, maintenant, encore"),
  ("よし", "bien, d\x27accord, allez"),
  ("いや", "non, eh bien"),
  ("ええ", "oui, eh bien"),
  ("はい", "oui"),
  ("いいえ", "non"),
  ("ううん", "non (familier)"),
  ("うん", "oui (familier)"),
  ("ああ", "ah, oh"),
  ("えっ", "hein, quoi"),
  ("へえ", "oh, vraiment"),
  ("いい", "bon, bien"),
  ("良い", "bon, bien"),
  ("言う", "dire, parler"),
  ("為る", "faire"),
  ("する", "faire"),
  ("やる", "faire"),
  ("なる", "devenir"),
  ("ある", "être, avoir, exister"),
  ("いる", "être (animé)"),
  ("見る", "voir, regarder"),
  ("聞く", "écouter, entendre, demander"),
  ("話す", "parler"),
  ("書く", "écrire"),
  ("読む", "lire"),
  ("互い", "mutuellement, l\x27un l\x27autre, réciproquement"),
  ("相手", "partenaire, adversaire, l\x27autre personne"),
  ("求める", "demander, chercher, désirer, exiger"),
  ("物", "chose, objet, article"),
  ("事", "chose, affaire, fait"),
  ("決まる", "être décidé, être fixé, être réglé"),
  ("全然", "pas du tout, complètement (avec négation)"),
  ("逆", "inverse, contraire, opposé"),
  ("気", "esprit, sentiment, humeur, envie, attention"),
  ("からかう", "taquiner, se moquer gentiment"),
  ("却って", "au contraire, plutôt, inversement"),
  ("挑発", "provocation, défi"),
  ("反省", "réflexion, introspection, remords"),
  ("私", "je, moi"),
  ("僕", "je (masculin, poli)"),
  ("俺", "je (masculin, familier)"),
  ("あなた", "tu, vous"),
  ("君", "tu (familier)"),
  ("彼", "il, lui"),
  ("彼女", "elle"),
  ("これ", "ceci, ça"),
  ("それ", "cela, ça"),
  ("あれ", "ça là-bas"),
  ("何", "quoi, que"),
  ("誰", "qui"),
  ("どこ", "où"),
  ("いつ", "quand"),
  ("なぜ", "pourquoi"),
  ("どう", "comment"),
  ("どの", "quel, lequel"),
  ("どれ", "lequel"),
  ("大きい", "grand"),
  ("小さい", "petit"),
  ("新しい", "nouveau"),
  ("古い", "vieux, ancien"),
  ("高い", "haut, cher"),
  ("安い", "bon marché, pas cher"),
  ("早い", "tôt, rapide"),
  ("遅い", "tard, lent"),
  ("多い", "nombreux, beaucoup"),
  ("少ない", "peu, peu nombreux"),
  ("今", "maintenant, présent"),
  ("昨日", "hier"),
  ("明日", "demain"),
  ("今日", "aujourd\x27hui"),
  ("毎日", "chaque jour, tous les jours"),
  ("いつも", "toujours, constamment"),
  ("時々", "parfois, quelquefois"),
  ("たまに", "de temps en temps, rarement"),
  ("人", "personne, gens"),
  ("時", "temps, moment, heure"),
  ("日", "jour, soleil"),
  ("年", "année"),
  ("月", "mois, lune"),
  ("週", "semaine"),
  ("朝", "matin"),
  ("昼", "midi, journée"),
  ("夜", "nuit, soir"),
  ("家", "maison, famille"),
  ("学校", "école"),
  ("先生", "professeur, enseignant"),
  ("友達", "ami"),
  ("できる", "pouvoir faire, être capable de"),
  ("出来る", "pouvoir faire, être capable de"),
  ("見る", "voir, regarder"),
  ("来る", "venir"),
  ("居る", "être, se trouver (êtres vivants)"),
  ("いる", "être, se trouver (êtres vivants)"),
  ("買う", "acheter"),
  ("分かる", "comprendre, savoir"),
  ("わかる", "comprendre, savoir"),
  ("欲しい", "vouloir, désirer"),
  ("優しい", "gentil, doux, tendre"),
  ("やる", "faire"),
  ("遣る", "faire"),
  ("ある", "exister, avoir (objets inanimés)"),
  ("有る", "exister, avoir"),
  ("なる", "devenir"),
  ("成る", "devenir"),
  ("思う", "penser, croire"),
  ("おもう", "penser"),
  ("行く", "aller"),
  ("いく", "aller"),
  ("こと", "chose, fait, affaire"),
  ("次", "prochain, suivant"),
  ("回", "fois (compteur)"),
  ("西", "ouest"),
  ("ひと", "personne"),
  ("とき", "moment"),
  ("ところ", "endroit, lieu"),
  ("まあ", "eh bien, bon"),
  ("色々", "divers, varié, toutes sortes de"),
  ("いろいろ", "divers, varié"),
  ("足りる", "suffire, être suffisant"),
  ("過ぎる", "dépasser, passer"),
  ("侭", "tel quel, comme c\x27est"),
  ("まま", "tel quel, comme c\x27est"),
  ("攻める", "attaquer, assaillir"),
  ("受ける", "recevoir, subir"),
  ("確か", "certain, sûr"),
  ("たしか", "si je me souviens bien"),
  ("我慢", "patience, endurance"),
  ("がまん", "patience, endurance"),
  ("勝負", "match, compétition, victoire ou défaite"),
  ("しょうぶ", "match, compétition"),
  ("伝わる", "se transmettre, se propager"),
  ("つたわる", "se transmettre"),
  ("全て", "tout, tous"),
  ("すべて", "tout, tous"),
  ("現状", "situation actuelle, état actuel"),
  ("げんじょう", "situation actuelle"),
  ("メッセージ", "message"),
  ("ショック", "choc"),
  ("コーヒー", "café (boisson amère)"),
  ("ジュース", "jus (boisson sucrée)"),
  ("ブラック", "noir, sans sucre ni lait"),
  ("ミルク", "lait"),
  ("テスト", "test, examen"),
  ("レベル", "niveau"),
  ("スタイル", "style"),
  ("サンド", "sandwich (abréviation)"),
  ("ハンバーガー", "hamburger"),
  ("パン", "pain"),
  ("ケーキ", "gâteau"),
  ("苦い", "amer (goût)"),
  ("にがい", "amer (goût)"),
  ("苦手", "pas doué, ne pas aimer"),
  ("にがて", "pas doué, ne pas aimer"),
  ("逸れる", "s\x27écarter, dévier"),
  ("それる", "s\x27écarter, dévier"),
  ("散々", "terriblement, complètement"),
  ("さんざん", "terriblement, complètement"),
  ("返る", "retourner, revenir"),
  ("かえる", "retourner, revenir"),
  ("帰る", "rentrer (chez soi), retourner"),
  ("やつ", "type, personne (familier)"),
  ("奴", "type, personne (familier)"),
  ("チャリ", "vélo (argot)"),
  ("見せ合う", "se montrer l\x27un à l\x27autre, se montrer mutuellement"),
  ("みせあう", "se montrer l\x27un à l\x27autre"),
  ("見せる", "montrer, faire voir"),
  ("みせる", "montrer"),
  ("ね", "n\x27est-ce pas"),
  ("よ", "particule d\x27emphase"),
  ("な", "ne... pas, hein"),
  ("わ", "particule (féminin)"),
  ("ぞ", "particule (masculin)"),
  ("ぜ", "particule (masculin familier)"),
  ("ほど", "environ, autant que"),
  ("だけ", "seulement"),
  ("ばかり", "seulement, toujours"),
  ("など", "et cetera"),
  ("って", "dit-on"),
  ("ため", "pour, afin de"),
  ("訳", "raison"),
  ("わけ", "raison"),
  ("筈", "devrait"),
  ("はず", "devrait"),
  ("つもり", "intention"),
  ("よう", "manière, semble"),
  ("ふう", "style"),
  ("気味", "tendance"),
  ("ぎみ", "tendance"),
  ("らしい", "semble, typique"),
  ("みたい", "comme, semble"),
  ("なんて", "comme, quel"),
  ("とか", "et cetera, ou"),
  ("のに", "bien que"),
  ("けど", "mais"),
  ("でも", "mais, même"),
  ("しかし", "cependant"),
  ("それでも", "malgré tout"),
  ("だから", "donc"),
  ("なので", "donc, parce que"),
  ("よね", "n\x27est-ce pas"),
  ("でしょ", "n\x27est-ce pas"),
  ("だろう", "probablement"),
  ("んだ", "c\x27est que"),
  ("べき", "devrait"),
  ("恥ずかしい", "embarrassant"),
  ("はずかしい", "embarrassant"),
  ("悔しい", "frustrant"),
  ("くやしい", "frustrant"),
  ("寂しい", "seul, triste"),
  ("さびしい", "seul"),
  ("懐かしい", "nostalgique"),
  ("なつかしい", "nostalgique"),
  ("羨ましい", "envieux"),
  ("うらやましい", "envieux"),
  ("恐ろしい", "effrayant"),
  ("おそろしい", "effrayant"),
  ("凄い", "incroyable"),
  ("すごい", "incroyable"),
  ("素晴らしい", "merveilleux"),
  ("すばらしい", "merveilleux"),
  ("可愛い", "mignon"),
  ("かわいい", "mignon"),
  ("格好いい", "cool, classe"),
  ("かっこいい", "cool"),
  ("汚い", "sale"),
  ("きたない", "sale"),
  ("臭い", "puant"),
  ("くさい", "puant"),
  ("見せる", "montrer"),
  ("みせる", "montrer"),
  ("聞かせる", "faire écouter"),
  ("きかせる", "faire écouter"),
  ("教わる", "apprendre de"),
  ("おそわる", "apprendre de"),
  ("感じる", "sentir, ressentir"),
  ("かんじる", "sentir"),
  ("頼む", "demander"),
  ("たのむ", "demander"),
  ("褒める", "féliciter"),
  ("ほめる", "féliciter"),
  ("叱る", "gronder"),
  ("しかる", "gronder"),
  ("怖がる", "avoir peur"),
  ("こわがる", "avoir peur"),
  ("急ぐ", "se dépêcher"),
  ("いそぐ", "se dépêcher"),
  ("焦る", "être pressé"),
  ("あせる", "être pressé"),
  ("慌てる", "paniquer"),
  ("あわてる", "paniquer"),
  ("恐れる", "craindre"),
  ("おそれる", "craindre"),
  ("不安", "inquiétude"),
  ("ふあん", "inquiétude"),
  ("緊張", "tension"),
  ("きんちょう", "tension"),
  ("満足", "satisfaction"),
  ("まんぞく", "satisfaction"),
  ("納得", "compréhension"),
  ("なっとく", "compréhension"),
  ("了解", "compris"),
  ("りょうかい", "compris"),
  ("承知", "accord"),
  ("しょうち", "accord"),
  ("感謝", "gratitude"),
  ("かんしゃ", "gratitude"),
  ("お礼", "remerciement"),
  ("おれい", "remerciement"),
  ("謝罪", "excuses"),
  ("しゃざい", "excuses"),
  ("後悔", "regret"),
  ("こうかい", "regret"),
  ("諦め", "abandon"),
  ("あきらめ", "abandon"),
  ("辛抱", "patience"),
  ("しんぼう", "patience"),
  ("耐える", "endurer"),
  ("たえる", "endurer"),
  ("無駄", "inutile"),
  ("むだ", "inutile"),
  ("無意味", "sans sens"),
  ("むいみ", "sans sens"),
  ("意義", "signification"),
  ("いぎ", "signification"),
  ("大事", "important"),
  ("だいじ", "important"),
  ("重要", "important"),
  ("じゅうよう", "important"),
  ("不可欠", "indispensable"),
  ("ふかけつ", "indispensable"),
  ("当然", "naturel"),
  ("とうぜん", "naturel"),
  ("当たり前", "normal"),
  ("あたりまえ", "normal"),
  ("通常", "habituel"),
  ("つうじょう", "habituel"),
  ("珍しい", "rare"),
  ("めずらしい", "rare"),
  ("変", "étrange"),
  ("へん", "étrange"),
  ("奇妙", "étrange"),
  ("きみょう", "étrange"),
  ("不思議", "mystérieux"),
  ("ふしぎ", "mystérieux"),
  ("謎", "énigme"),
  ("なぞ", "énigme"),
  ("内緒", "secret"),
  ("ないしょ", "secret"),
  ("隠す", "cacher"),
  ("かくす", "cacher"),
  ("隠れる", "se cacher"),
  ("かくれる", "se cacher"),
  ("バレる", "être découvert"),
  ("ばれる", "être découvert"),
  ("明らか", "clair"),
  ("あきらか", "clair"),
  ("明白", "évident"),
  ("めいはく", "évident"),
  ("確実", "certain"),
  ("かくじつ", "certain"),
  ("さっきまで", "jusqu\x27à il y a un instant"),
  ("東", "est"),
  ("ひがし", "est"),
  ("南", "sud"),
  ("みなみ", "sud"),
  ("北", "nord"),
  ("きた", "nord"),
  ("むん", "chose (dialecte)"),
  ("呼ぶ", "appeler"),
  ("よぶ", "appeler"),
  ("答える", "répondre"),
  ("こたえる", "répondre"),
  ("質問", "question"),
  ("しつもん", "question"),
  ("借りる", "emprunter"),
  ("かりる", "emprunter"),
  ("貸す", "prêter"),
  ("かす", "prêter"),
  ("飲める", "pouvoir boire"),
  ("のめる", "pouvoir boire"),
  ("食べられる", "pouvoir manger"),
  ("たべられる", "pouvoir manger"),
  ("見られる", "pouvoir voir"),
  ("みられる", "pouvoir voir"),
  ("起こす", "réveiller, causer"),
  ("おこす", "réveiller"),
  ("育てる", "élever, cultiver"),
  ("そだてる", "élever"),
  ("比べる", "comparer"),
  ("くらべる", "comparer"),
  ("調べる", "vérifier, rechercher"),
  ("しらべる", "vérifier"),
  ("確かめる", "confirmer, vérifier"),
  ("たしかめる", "confirmer"),
  ("試す", "essayer, tester"),
  ("ためす", "essayer"),
  ("努める", "s\x27efforcer, faire des efforts"),
  ("つとめる", "s\x27efforcer"),
  ("励む", "s\x27appliquer, travailler dur"),
  ("はげむ", "s\x27appliquer"),
  ("挑む", "défier, relever un défi"),
  ("いどむ", "défier"),
  ("競う", "rivaliser, concourir"),
  ("きそう", "rivaliser"),
  ("争う", "se disputer, lutter"),
  ("あらそう", "se disputer"),
  ("戦う", "se battre, combattre"),
  ("たたかう", "se battre"),
  ("側", "côté"),
  ("そば", "à côté de, près de"),
  ("辺り", "environs, alentours"),
  ("あたり", "environs, alentours"),
  ("向こう", "là-bas, de l\x27autre côté"),
  ("むこう", "là-bas"),
  ("背", "dos, taille"),
  ("せ", "dos, taille"),
  ("腹", "ventre, estomac"),
  ("はら", "ventre"),
  ("指", "doigt"),
  ("ゆび", "doigt"),
  ("今から", "à partir de maintenant"),
  ("いまから", "à partir de maintenant"),
  ("さっき", "il y a un instant"),
  ("これから", "désormais, à partir de maintenant"),
  ("もしもし", "allô (au téléphone)"),
  ("枚", "compteur (feuilles, papier)"),
  ("まい", "compteur (feuilles)"),
  ("冊", "compteur (livres)"),
  ("さつ", "compteur (livres)"),
  ("台", "compteur (machines, véhicules)"),
  ("だい", "compteur (machines)"),
  ("匹", "compteur (petits animaux)"),
  ("ひき", "compteur (animaux)"),
  ("杯", "compteur (boissons, bols)"),
  ("個", "compteur (objets)"),
  ("こ", "compteur (objets)"),
  ("若い", "jeune"),
  ("わかい", "jeune"),
  ("太い", "gros, épais"),
  ("ふとい", "gros"),
  ("細い", "fin, mince"),
  ("ほそい", "fin"),
  ("テスト", "test, examen"),
  ("ノート", "cahier, carnet"),
  ("ページ", "page"),
  ("メートル", "mètre"),
  ("キロ", "kilo, kilomètre"),
  ("グラム", "gramme"),
  ("リットル", "litre"),
  ("センチ", "centimètre"),
  ("ミリ", "millimètre"),
  ("説得", "persuasion"),
  ("せっとく", "persuasion"),
  ("文句", "plainte, réclamation"),
  ("もんく", "plainte"),
  ("皆", "tout le monde, tous"),
  ("みんな", "tout le monde"),
  ("皆さん", "mesdames et messieurs, tout le monde (poli)"),
  ("みなさん", "tout le monde (poli)"),
  ("覚悟", "résolution, préparation mentale"),
  ("かくご", "résolution"),
  ("決意", "détermination, résolution"),
  ("けつい", "détermination"),
  ("意志", "volonté"),
  ("いし", "volonté"),
  ("勇気", "courage"),
  ("ゆうき", "courage")
]

/-- Lookup in an association list with Python-dict semantics: the last
binding of a repeated key wins. -/
def pyDictLookup (l : List (String × String)) (k : String) : Option String :=
  (l.reverse.find? (fun p => p.1 == k)).map (·.2)

/-- The mutable translator state: the module-level `_translation_cache`
dict and the `_cache_modified` flag. -/
structure TransState where
  cache : List (String × String)
  cache_modified : Bool
deriving Repr, DecidableEq

/-- `translate_to_french(word, use_jisho)` from `translator.py`.
Externals are passed as oracles: `vocab_dict` is the static dictionary
loaded by `analyzer.load_vocabulary_dictionary`; `deepl_configured` is
whether `DEEPL_API_KEY` is set and not the placeholder; `deepl w` is the
outcome of `translate_with_deepl(w)` (`none` on any failure) and `jisho w`
the `english` field of `get_jisho_translation(w)` (`none` on any failure).
Returns the gloss together with the updated cache state. -/
def translate_to_french (vocab_dict : String → Option String)
    (deepl_configured : Bool) (deepl : String → Option String)
    (jisho : String → Option String)
    (word : String) (use_jisho : Bool) (st : TransState) : String × TransState :=
  match pyDictLookup COMMON_WORDS_FR word with
  | some t => (t, st)
  | none =>
    match pyDictLookup st.cache word with
    | some t => (t, st)
    | none =>
      match vocab_dict word with
      | some translation => (translation, ⟨st.cache ++ [(word, translation)], true⟩)
      | none =>
        match (if deepl_configured then deepl word else none) with
        | some deepl_translation =>
            (deepl_translation, ⟨st.cache ++ [(word, deepl_translation)], true⟩)
        | none =>
          match (if use_jisho then jisho word else none) with
          | some english =>
              let translation := english ++ " (EN)"
              (translation, ⟨st.cache ++ [(word, translation)], true⟩)
          | none => ("[Traduction manquante]", st)

/-- Modelled from the spec: the resolver order the specification describes
in section 4.4 — priority table, cache, static dictionary, then the
*remote dictionary lookup* (Jisho), then the *machine-translation service*
(DeepL), then the placeholder.  This definition exists only to compare the
specified source order with the implemented one; it differs from
`translate_to_french` exactly by the relative order of the two network
sources. -/
def resolve_spec_order (vocab_dict : String → Option String)
    (deepl_configured : Bool) (deepl : String → Option String)
    (jisho : String → Option String)
    (word : String) (use_jisho : Bool) (st : TransState) : String × TransState :=
  match pyDictLookup COMMON_WORDS_FR word with
  | some t => (t, st)
  | none =>
    match pyDictLookup st.cache word with
    | some t => (t, st)
    | none =>
      match vocab_dict word with
      | some translation => (translation, ⟨st.cache ++ [(word, translation)], true⟩)
      | none =>
        match (if use_jisho then jisho word else none) with
        | some english =>
            let translation := english ++ " (EN)"
            (translation, ⟨st.cache ++ [(word, translation)], true⟩)
        | none =>
          match (if deepl_configured then deepl word else none) with
          | some deepl_translation =>
              (deepl_translation, ⟨st.cache ++ [(word, deepl_translation)], true⟩)
          | none => ("[Traduction manquante]", st)

theorem contains_append (l1 l2 : List String) (a : String) :
    (l1 ++ l2).contains a = (l1.contains a || l2.contains a) := by
  induction l1 with
  | nil => rfl
  | cons x xs ih =>
      show (a == x || (xs ++ l2).contains a) = ((a == x || xs.contains a) || l2.contains a)
      rw [ih, Bool.or_assoc]

theorem contains_singleton (x a : String) : ([x] : List String).contains a = (a == x) := by
  show (a == x || ([] : List String).contains a) = (a == x)
  simp [List.contains]

theorem contains_nil (a : String) : ([] : List String).contains a = false := rfl

theorem contains_ite (c : Prop) [Decidable c] (l1 l2 : List String) (a : String) :
    (if c then l1 else l2).contains a = if c then l1.contains a else l2.contains a := by
  split <;> rfl

theorem mem_ite_iff (c : Prop) [Decidable c] {α : Type} (a : α) (l1 l2 : List α) :
    (a ∈ if c then l1 else l2) ↔ ((c ∧ a ∈ l1) ∨ (¬c ∧ a ∈ l2)) := by
  split <;> simp_all

theorem step_masenka_eq (text : String) (st : DetState) :
    step_masenka text st =
      ⟨st.detected ++ (if strContains text "ませんか" then [entry_masenka] else []),
       st.claimed ++ (if strContains text "ませんか" then ["ませんか"] else [])⟩ := by
  unfold step_masenka emitEntry
  split_ifs <;> simp

theorem step_obligation_eq (text : String) (st : DetState) :
    step_obligation text st =
      ⟨st.detected ++ (if strContains text "なければならない" || strContains text "なきゃ" then [entry_obligation] else []),
       st.claimed ++ (if strContains text "なければならない" || strContains text "なきゃ" then ["obligation"] else [])⟩ := by
  unfold step_obligation emitEntry
  split_ifs <;> simp

theorem step_temoii_eq (text : String) (st : DetState) :
    step_temoii text st =
      ⟨st.detected ++ (if strContains text "てもいい" || strContains text "でもいい" then [entry_temoii] else []),
       st.claimed ++ (if strContains text "てもいい" || strContains text "でもいい" then ["permission"] else [])⟩ := by
  unfold step_temoii emitEntry
  split_ifs <;> simp

theorem step_tekudasai_eq (text : String) (st : DetState) :
    step_tekudasai text st =
      ⟨st.detected ++ (if strContains text "てください" || strContains text "でください" then [entry_tekudasai] else []),
       st.claimed ++ (if strContains text "てください" || strContains text "でください" then ["request"] else [])⟩ := by
  unfold step_tekudasai emitEntry
  split_ifs <;> simp

theorem step_teimasu_group_eq (text : String) (st : DetState) :
    step_teimasu_group text st =
      ⟨st.detected ++ (if strContains text "ています" then [entry_teimasu text]
          else if teruCond text then [entry_teru text]
          else if strContains text "ている" then [entry_teiru] else []),
       st.claimed ++ (if strContains text "ています" then ["ています"]
          else if teruCond text then ["てる"]
          else if strContains text "ている" then ["ている"] else [])⟩ := by
  unfold step_teimasu_group emitEntry
  split_ifs <;> simp

theorem step_mashita_group_eq (text : String) (st : DetState) :
    step_mashita_group text st =
      ⟨st.detected ++ (if strContains text "ました" then [entry_mashita]
          else if strContains text "ません" && !(st.claimed.contains "ませんか") then [entry_masen]
          else if strContains text "ます" && !(st.claimed.contains "ました") && !(st.claimed.contains "ません") then [entry_masu] else []),
       st.claimed ++ (if strContains text "ました" then ["ました"]
          else if strContains text "ません" && !(st.claimed.contains "ませんか") then ["ません"]
          else if strContains text "ます" && !(st.claimed.contains "ました") && !(st.claimed.contains "ません") then ["ます"] else [])⟩ := by
  unfold step_mashita_group emitEntry
  split_ifs <;> simp

theorem step_deshita_group_eq (text : String) (st : DetState) :
    step_deshita_group text st =
      ⟨st.detected ++ (if strContains text "でした" then [entry_deshita]
          else if strContains text "です" then [entry_desu] else []),
       st.claimed ++ (if strContains text "でした" then ["でした"]
          else if strContains text "です" then ["です"] else [])⟩ := by
  unfold step_deshita_group emitEntry
  split_ifs <;> simp

theorem step_tai_group_eq (text : String) (st : DetState) :
    step_tai_group text st =
      ⟨st.detected ++ (if strContains text "たい" then [entry_tai]
          else if strContains text "た" && !(st.claimed.contains "ました") && !(st.claimed.contains "たい") then [entry_ta text] else []),
       st.claimed ++ (if strContains text "たい" then ["たい"]
          else if strContains text "た" && !(st.claimed.contains "ました") && !(st.claimed.contains "たい") then ["た"] else [])⟩ := by
  unfold step_tai_group emitEntry
  split_ifs <;> simp

theorem step_nai_eq (text : String) (st : DetState) :
    step_nai text st =
      ⟨st.detected ++ (if strContains text "ない" && !(st.claimed.contains "obligation") then [entry_nai text] else []),
       st.claimed ++ (if strContains text "ない" && !(st.claimed.contains "obligation") then ["ない"] else [])⟩ := by
  unfold step_nai emitEntry
  split_ifs <;> simp

theorem step_deshou_eq (text : String) (st : DetState) :
    step_deshou text st =
      ⟨st.detected ++ (if strContains text "でしょう" then [entry_deshou] else []),
       st.claimed ++ (if strContains text "でしょう" then ["でしょう"] else [])⟩ := by
  unfold step_deshou emitEntry
  split_ifs <;> simp

theorem step_soudesu_eq (text : String) (st : DetState) :
    step_soudesu text st =
      ⟨st.detected ++ (if strContains text "そうです" then [entry_soudesu] else []),
       st.claimed ++ (if strContains text "そうです" then ["そうです"] else [])⟩ := by
  unfold step_soudesu emitEntry
  split_ifs <;> simp

theorem step_made_eq (text : String) (st : DetState) :
    step_made text st =
      ⟨st.detected ++ (if strContains text "まで" then [entry_made] else []),
       st.claimed ++ (if strContains text "まで" then ["まで"] else [])⟩ := by
  unfold step_made emitEntry
  split_ifs <;> simp

theorem step_youni_eq (text : String) (st : DetState) :
    step_youni text st =
      ⟨st.detected ++ (if strContains text "ように" then [entry_youni text] else []),
       st.claimed ++ (if strContains text "ように" then ["ように"] else [])⟩ := by
  unfold step_youni emitEntry
  split_ifs <;> simp

theorem step_te_eq (text : String) (st : DetState) :
    step_te text st =
      ⟨st.detected ++ (if strContains text "て" && !(st.claimed.contains "request") && !(st.claimed.contains "permission") && !(st.claimed.contains "ています") && !(st.claimed.contains "ている") && !(st.claimed.contains "てる") then [entry_te text] else []),
       st.claimed ++ (if strContains text "て" && !(st.claimed.contains "request") && !(st.claimed.contains "permission") && !(st.claimed.contains "ています") && !(st.claimed.contains "ている") && !(st.claimed.contains "てる") then ["て"] else [])⟩ := by
  unfold step_te emitEntry
  split_ifs <;> simp

theorem step_suru_eq (text : String) (st : DetState) :
    step_suru text st =
      ⟨st.detected ++ (if strContains text "する" then [entry_suru] else []),
       st.claimed ++ (if strContains text "する" then ["する"] else [])⟩ := by
  unfold step_suru emitEntry
  split_ifs <;> simp

/-- The fired conditions of the cascade, with every claimed-set
consultation resolved: which branch of `detect_patterns` actually emits,
as a function of the text alone. -/
def cascadeDetected (text : String) : List GrammarEntry :=
  (if strContains text "ませんか" then [entry_masenka] else []) ++
  (if strContains text "なければならない" || strContains text "なきゃ" then [entry_obligation] else []) ++
  (if strContains text "てもいい" || strContains text "でもいい" then [entry_temoii] else []) ++
  (if strContains text "てください" || strContains text "でください" then [entry_tekudasai] else []) ++
  (if strContains text "ています" then [entry_teimasu text]
   else if teruCond text then [entry_teru text]
   else if strContains text "ている" then [entry_teiru] else []) ++
  (if strContains text "ました" then [entry_mashita]
   else if strContains text "ません" && !(strContains text "ませんか") then [entry_masen]
   else if strContains text "ます" then [entry_masu] else []) ++
  (if strContains text "でした" then [entry_deshita]
   else if strContains text "です" then [entry_desu] else []) ++
  (if strContains text "たい" then [entry_tai]
   else if strContains text "た" && !(strContains text "ました") then [entry_ta text] else []) ++
  (if strContains text "ない" && !(strContains text "なければならない" || strContains text "なきゃ") then [entry_nai text] else []) ++
  (if strContains text "でしょう" then [entry_deshou] else []) ++
  (if strContains text "そうです" then [entry_soudesu] else []) ++
  (if strContains text "まで" then [entry_made] else []) ++
  (if strContains text "ように" then [entry_youni text] else []) ++
  (if strContains text "て" && !(strContains text "てください" || strContains text "でください") && !(strContains text "てもいい" || strContains text "でもいい") && !(strContains text "ています") && !(!(strContains text "ています") && (!(teruCond text) && strContains text "ている")) && !(!(strContains text "ています") && teruCond text) then [entry_te text] else []) ++
  (if strContains text "する" then [entry_suru] else [])

theorem runCascade_detected (text : String) :
    (runCascade text).detected = cascadeDetected text := by
  unfold runCascade cascadeDetected
  rw [step_masenka_eq, step_obligation_eq, step_temoii_eq, step_tekudasai_eq,
      step_teimasu_group_eq, step_mashita_group_eq, step_deshita_group_eq,
      step_tai_group_eq, step_nai_eq, step_deshou_eq, step_soudesu_eq,
      step_made_eq, step_youni_eq, step_te_eq, step_suru_eq]
  simp [contains_append, contains_singleton, contains_ite, mem_ite_iff]

/-- The surface keys of `particle_info`. -/
def particleKeys : List String := particle_info.map (·.1)

theorem lookupParticle_key {s : String} {info : ParticleInfo}
    (h : lookupParticle s = some info) : s ∈ particleKeys := by
  unfold lookupParticle at h
  cases hf : particle_info.find? (fun p => p.1 == s) with
  | none => rw [hf] at h; simp at h
  | some q =>
      have hq := List.find?_some hf
      have hmem := List.mem_of_find?_eq_some hf
      have : q.1 = s := by simpa using hq
      subst this
      exact List.mem_map_of_mem _ hmem

/-- One step of the `detect_particles` token loop either leaves the state
unchanged or appends exactly one known particle. -/
theorem particleStep_char (text : String) (found : List GrammarEntry)
    (seen : List String) (t : Token) :
    particleStep text (found, seen) t = (found, seen) ∨
    ∃ info, lookupParticle t.surface = some info ∧ isParticlePos t.partOfSpeech = true ∧
      particleStep text (found, seen) t =
        (found ++ [mkParticleEntry t.surface info text], seen ++ [t.surface]) := by
  have hred : particleStep text (found, seen) t =
      (if isParticlePos t.partOfSpeech then
        match lookupParticle t.surface with
        | some info =>
            if !(seen.contains t.surface) then
              (found ++ [mkParticleEntry t.surface info text], seen ++ [t.surface])
            else (found, seen)
        | none => (found, seen)
      else (found, seen)) := rfl
  rw [hred]
  split
  · next hpos =>
      split
      · next info heq =>
          split
          · right; exact ⟨info, heq, hpos, rfl⟩
          · left; rfl
      · left; rfl
  · left; rfl

theorem foldl_particle_patterns (text : String) (tokens : List Token) :
    ∀ found seen, (∀ e ∈ found, e.pattern ∈ particleKeys) →
      ∀ e ∈ (tokens.foldl (particleStep text) (found, seen)).1, e.pattern ∈ particleKeys := by
  induction tokens with
  | nil => intro found seen h; simpa using h
  | cons t ts ih =>
      intro found seen h
      simp only [List.foldl_cons]
      rcases particleStep_char text found seen t with hstep | ⟨info, hl, _, hstep⟩
      · rw [hstep]; exact ih found seen h
      · rw [hstep]
        apply ih
        intro e he
        rcases List.mem_append.1 he with h1 | h1
        · exact h e h1
        · have : e = mkParticleEntry t.surface info text := by simpa using h1
          subst this
          exact lookupParticle_key hl

theorem foldl_particle_seen_not (text : String) (tokens : List Token) (s : String) :
    ∀ found seen, s ∉ seen →
      (∀ t ∈ tokens, ¬(isParticlePos t.partOfSpeech = true ∧ t.surface = s)) →
      s ∉ (tokens.foldl (particleStep text) (found, seen)).2 := by
  induction tokens with
  | nil => intro found seen h _; simpa using h
  | cons t ts ih =>
      intro found seen h htok
      simp only [List.foldl_cons]
      rcases particleStep_char text found seen t with hstep | ⟨info, _, hpos, hstep⟩
      · rw [hstep]
        exact ih found seen h (fun u hu => htok u (List.mem_cons_of_mem _ hu))
      · rw [hstep]
        apply ih
        · intro hmem
          rcases List.mem_append.1 hmem with h1 | h1
          · exact h h1
          · have hs : s = t.surface := by simpa using h1
            exact htok t (List.mem_cons_self _ _) ⟨hpos, hs.symm⟩
        · exact fun u hu => htok u (List.mem_cons_of_mem _ hu)

theorem detect_particles_patterns (tokens : List Token) (text : String) :
    ∀ e ∈ detect_particles tokens text, e.pattern ∈ particleKeys := by
  unfold detect_particles
  have hbase := foldl_particle_patterns text tokens [] [] (by simp)
  intro e he
  simp only at he hbase
  split at he
  · split at he
    · next info hyl =>
        have he2 := List.mem_of_mem_filter he
        rcases List.mem_append.1 he2 with h1 | h1
        · exact hbase e h1
        · have : e = mkYoneEntry info := by simpa using h1
          subst this
          exact lookupParticle_key hyl
    · exact hbase e (by assumption)
  · exact hbase e (by assumption)

theorem merge_foldl_split (l : List GrammarEntry) :
    ∀ st : DetState,
      ∃ pp,
        (l.foldl (fun acc particle =>
            if !(acc.claimed.contains particle.pattern) then
              ⟨acc.detected ++ [particle], acc.claimed ++ [particle.pattern]⟩
            else acc) st).detected = st.detected ++ pp ∧
        ∀ e ∈ pp, e ∈ l := by
  induction l with
  | nil => intro st; exact ⟨[], by simp, by simp⟩
  | cons q qs ih =>
      intro st
      simp only [List.foldl_cons]
      split
      · obtain ⟨pp, heq, hpp⟩ := ih ⟨st.detected ++ [q], st.claimed ++ [q.pattern]⟩
        refine ⟨q :: pp, ?_, ?_⟩
        · simpa [List.append_assoc] using heq
        · intro e he
          cases he with
          | head => exact List.mem_cons_self _ _
          | tail _ he2 => exact List.mem_cons_of_mem _ (hpp e he2)
      · obtain ⟨pp, heq, hpp⟩ := ih st
        exact ⟨pp, heq, fun e he => List.mem_cons_of_mem _ (hpp e he)⟩

theorem step_particles_split (tokens : List Token) (text : String) (st : DetState) :
    ∃ pp : List GrammarEntry,
      (step_particles tokens text st).detected = st.detected ++ pp ∧
      ∀ e ∈ pp, e.pattern ∈ particleKeys := by
  unfold step_particles
  obtain ⟨pp, heq, hpp⟩ := merge_foldl_split (detect_particles tokens text) st
  exact ⟨pp, heq, fun e he => detect_particles_patterns tokens text e (hpp e he)⟩

theorem step_fallback_detected (st : DetState) :
    (step_fallback st).detected =
      st.detected ++ (if st.detected.isEmpty then [fallbackEntry] else []) := by
  unfold step_fallback
  split
  · next h => simp [List.isEmpty_iff.1 h]
  · next h => simp [h]

theorem detect_patterns_split (gp : List GrammarPatternDef) (text : String) (tokens : List Token) :
    ∃ pp : List GrammarEntry,
      detect_patterns gp text tokens =
        (cascadeDetected text ++ pp) ++
          (if (cascadeDetected text ++ pp).isEmpty then [fallbackEntry] else []) ∧
      ∀ e ∈ pp, e.pattern ∈ particleKeys := by
  unfold detect_patterns
  obtain ⟨pp, heq, hpp⟩ := step_particles_split tokens text (runCascade text)
  refine ⟨pp, ?_, hpp⟩
  rw [step_fallback_detected, heq, runCascade_detected]

theorem mem_detect_iff_cascade {p : String} (hp : p ∉ particleKeys)
    (hfb : p ≠ "Phrase simple") (gp : List GrammarPatternDef) (text : String)
    (tokens : List Token) :
    (p ∈ (detect_patterns gp text tokens).map (·.pattern)) ↔
      p ∈ (cascadeDetected text).map (·.pattern) := by
  obtain ⟨pp, heq, hpp⟩ := detect_patterns_split gp text tokens
  rw [heq]
  simp only [List.map_append, List.mem_append]
  constructor
  · rintro ((h | h) | h)
    · exact h
    · exfalso
      rcases List.mem_map.1 h with ⟨e, he, hpe⟩
      exact hp (hpe ▸ hpp e he)
    · exfalso
      split at h
      · have : p = "Phrase simple" := by simpa [fallbackEntry] using h
        exact hfb this
      · simp at h
  · intro h
    left; left; exact h

theorem map_ite {α β : Type} (f : α → β) (c : Prop) [Decidable c] (l1 l2 : List α) :
    (if c then l1 else l2).map f = if c then l1.map f else l2.map f := by
  split <;> rfl

theorem cascade_mem_teimasu (text : String) :
    ("～ています" ∈ (cascadeDetected text).map (·.pattern)) ↔
      (strContains text "ています" = true) := by
  simp [cascadeDetected, mem_ite_iff, map_ite, entry_masenka, entry_obligation,
    entry_temoii, entry_tekudasai, entry_teimasu, entry_teru, entry_teiru,
    entry_mashita, entry_masen, entry_masu, entry_deshita, entry_desu, entry_tai,
    entry_ta, entry_nai, entry_deshou, entry_soudesu, entry_made, entry_youni,
    entry_te, entry_suru]

theorem cascade_mem_te (text : String) :
    ("～て" ∈ (cascadeDetected text).map (·.pattern)) ↔
      (strContains text "て" = true ∧ strContains text "てください" = false ∧
        strContains text "でください" = false ∧ strContains text "てもいい" = false ∧
        strContains text "でもいい" = false ∧ strContains text "ています" = false ∧
        teruCond text = false ∧ strContains text "ている" = false) := by
  simp [cascadeDetected, mem_ite_iff, map_ite, entry_masenka, entry_obligation,
    entry_temoii, entry_tekudasai, entry_teimasu, entry_teru, entry_teiru,
    entry_mashita, entry_masen, entry_masu, entry_deshita, entry_desu, entry_tai,
    entry_ta, entry_nai, entry_deshou, entry_soudesu, entry_made, entry_youni,
    entry_te, entry_suru]
  simp only [← Bool.not_eq_true]
  tauto

theorem cascade_mem_teiru (text : String) :
    ("～ている" ∈ (cascadeDetected text).map (·.pattern)) ↔
      (strContains text "ています" = false ∧ teruCond text = false ∧
        strContains text "ている" = true) := by
  simp [cascadeDetected, mem_ite_iff, map_ite, entry_masenka, entry_obligation,
    entry_temoii, entry_tekudasai, entry_teimasu, entry_teru, entry_teiru,
    entry_mashita, entry_masen, entry_masu, entry_deshita, entry_desu, entry_tai,
    entry_ta, entry_nai, entry_deshou, entry_soudesu, entry_made, entry_youni,
    entry_te, entry_suru]

theorem cascade_mem_teru (text : String) :
    ("～てる" ∈ (cascadeDetected text).map (·.pattern)) ↔
      (strContains text "ています" = false ∧ teruCond text = true) := by
  simp [cascadeDetected, mem_ite_iff, map_ite, entry_masenka, entry_obligation,
    entry_temoii, entry_tekudasai, entry_teimasu, entry_teru, entry_teiru,
    entry_mashita, entry_masen, entry_masu, entry_deshita, entry_desu, entry_tai,
    entry_ta, entry_nai, entry_deshou, entry_soudesu, entry_made, entry_youni,
    entry_te, entry_suru]

theorem cascade_mem_temoii (text : String) :
    ("～てもいい" ∈ (cascadeDetected text).map (·.pattern)) ↔
      (strContains text "てもいい" = true ∨ strContains text "でもいい" = true) := by
  simp [cascadeDetected, mem_ite_iff, map_ite, entry_masenka, entry_obligation,
    entry_temoii, entry_tekudasai, entry_teimasu, entry_teru, entry_teiru,
    entry_mashita, entry_masen, entry_masu, entry_deshita, entry_desu, entry_tai,
    entry_ta, entry_nai, entry_deshou, entry_soudesu, entry_made, entry_youni,
    entry_te, entry_suru]

theorem cascade_mem_tekudasai (text : String) :
    ("～てください" ∈ (cascadeDetected text).map (·.pattern)) ↔
      (strContains text "てください" = true ∨ strContains text "でください" = true) := by
  simp [cascadeDetected, mem_ite_iff, map_ite, entry_masenka, entry_obligation,
    entry_temoii, entry_tekudasai, entry_teimasu, entry_teru, entry_teiru,
    entry_mashita, entry_masen, entry_masu, entry_deshita, entry_desu, entry_tai,
    entry_ta, entry_nai, entry_deshou, entry_soudesu, entry_made, entry_youni,
    entry_te, entry_suru]

theorem cascade_mem_masenka (text : String) :
    ("～ませんか" ∈ (cascadeDetected text).map (·.pattern)) ↔
      (strContains text "ませんか" = true) := by
  simp [cascadeDetected, mem_ite_iff, map_ite, entry_masenka, entry_obligation,
    entry_temoii, entry_tekudasai, entry_teimasu, entry_teru, entry_teiru,
    entry_mashita, entry_masen, entry_masu, entry_deshita, entry_desu, entry_tai,
    entry_ta, entry_nai, entry_deshou, entry_soudesu, entry_made, entry_youni,
    entry_te, entry_suru]

theorem cascade_mem_masen (text : String) :
    ("～ません" ∈ (cascadeDetected text).map (·.pattern)) ↔
      (strContains text "ました" = false ∧ strContains text "ません" = true ∧
        strContains text "ませんか" = false) := by
  simp [cascadeDetected, mem_ite_iff, map_ite, entry_masenka, entry_obligation,
    entry_temoii, entry_tekudasai, entry_teimasu, entry_teru, entry_teiru,
    entry_mashita, entry_masen, entry_masu, entry_deshita, entry_desu, entry_tai,
    entry_ta, entry_nai, entry_deshou, entry_soudesu, entry_made, entry_youni,
    entry_te, entry_suru]

theorem cascade_mem_mashita (text : String) :
    ("～ました" ∈ (cascadeDetected text).map (·.pattern)) ↔
      (strContains text "ました" = true) := by
  simp [cascadeDetected, mem_ite_iff, map_ite, entry_masenka, entry_obligation,
    entry_temoii, entry_tekudasai, entry_teimasu, entry_teru, entry_teiru,
    entry_mashita, entry_masen, entry_masu, entry_deshita, entry_desu, entry_tai,
    entry_ta, entry_nai, entry_deshou, entry_soudesu, entry_made, entry_youni,
    entry_te, entry_suru]

theorem cascade_mem_ta (text : String) :
    ("～た" ∈ (cascadeDetected text).map (·.pattern)) ↔
      (strContains text "たい" = false ∧ strContains text "た" = true ∧
        strContains text "ました" = false) := by
  simp [cascadeDetected, mem_ite_iff, map_ite, entry_masenka, entry_obligation,
    entry_temoii, entry_tekudasai, entry_teimasu, entry_teru, entry_teiru,
    entry_mashita, entry_masen, entry_masu, entry_deshita, entry_desu, entry_tai,
    entry_ta, entry_nai, entry_deshou, entry_soudesu, entry_made, entry_youni,
    entry_te, entry_suru]

theorem cascade_mem_tai (text : String) :
    ("～たい" ∈ (cascadeDetected text).map (·.pattern)) ↔
      (strContains text "たい" = true) := by
  simp [cascadeDetected, mem_ite_iff, map_ite, entry_masenka, entry_obligation,
    entry_temoii, entry_tekudasai, entry_teimasu, entry_teru, entry_teiru,
    entry_mashita, entry_masen, entry_masu, entry_deshita, entry_desu, entry_tai,
    entry_ta, entry_nai, entry_deshou, entry_soudesu, entry_made, entry_youni,
    entry_te, entry_suru]

theorem cascade_mem_obligation (text : String) :
    ("～なければならない" ∈ (cascadeDetected text).map (·.pattern)) ↔
      (strContains text "なければならない" = true ∨
        strContains text "なきゃ" = true) := by
  simp [cascadeDetected, mem_ite_iff, map_ite, entry_masenka, entry_obligation,
    entry_temoii, entry_tekudasai, entry_teimasu, entry_teru, entry_teiru,
    entry_mashita, entry_masen, entry_masu, entry_deshita, entry_desu, entry_tai,
    entry_ta, entry_nai, entry_deshou, entry_soudesu, entry_made, entry_youni,
    entry_te, entry_suru]

theorem cascade_mem_nai (text : String) :
    ("～ない" ∈ (cascadeDetected text).map (·.pattern)) ↔
      (strContains text "ない" = true ∧ strContains text "なければならない" = false ∧
        strContains text "なきゃ" = false) := by
  simp [cascadeDetected, mem_ite_iff, map_ite, entry_masenka, entry_obligation,
    entry_temoii, entry_tekudasai, entry_teimasu, entry_teru, entry_teiru,
    entry_mashita, entry_masen, entry_masu, entry_deshita, entry_desu, entry_tai,
    entry_ta, entry_nai, entry_deshou, entry_soudesu, entry_made, entry_youni,
    entry_te, entry_suru]

theorem cascade_mem_deshita (text : String) :
    ("～でした" ∈ (cascadeDetected text).map (·.pattern)) ↔
      (strContains text "でした" = true) := by
  simp [cascadeDetected, mem_ite_iff, map_ite, entry_masenka, entry_obligation,
    entry_temoii, entry_tekudasai, entry_teimasu, entry_teru, entry_teiru,
    entry_mashita, entry_masen, entry_masu, entry_deshita, entry_desu, entry_tai,
    entry_ta, entry_nai, entry_deshou, entry_soudesu, entry_made, entry_youni,
    entry_te, entry_suru]

theorem cascade_mem_desu (text : String) :
    ("～です" ∈ (cascadeDetected text).map (·.pattern)) ↔
      (strContains text "でした" = false ∧ strContains text "です" = true) := by
  simp [cascadeDetected, mem_ite_iff, map_ite, entry_masenka, entry_obligation,
    entry_temoii, entry_tekudasai, entry_teimasu, entry_teru, entry_teiru,
    entry_mashita, entry_masen, entry_masu, entry_deshita, entry_desu, entry_tai,
    entry_ta, entry_nai, entry_deshou, entry_soudesu, entry_made, entry_youni,
    entry_te, entry_suru]

/-- C3: detect_patterns always returns a non-empty list: when no cascade
rule and no particle rule emitted anything, the single fallback
"simple declarative sentence" entry is emitted.  Totality of the embedding
models "does not raise". -/
theorem C3_detector_nonempty (gp : List GrammarPatternDef) (text : String)
    (tokens : List Token) : detect_patterns gp text tokens ≠ [] := by
  obtain ⟨pp, heq, -⟩ := detect_patterns_split gp text tokens
  rw [heq]
  rcases h : cascadeDetected text ++ pp with _ | ⟨e, l⟩
  · simp [h]
  · simp [h]

/-- C10: the result of detect_patterns does not depend on the
grammar-pattern data file loaded by load_grammar_patterns: two runs under
different (or empty) pattern data agree on equal text and tokens. -/
theorem C10_detector_ignores_pattern_data (gp1 gp2 : List GrammarPatternDef)
    (text : String) (tokens : List Token) :
    detect_patterns gp1 text tokens = detect_patterns gp2 text tokens := rfl

/-- C1 counterexample: on the input text そうです (with no tokens) the
detector emits both the ～です entry and the ～そうです entry, although the
trigger です is a strict substring of そうです for the same occurrence —
the very pair the claim rules out. -/
theorem C1_counterexample :
    ((detect_patterns [] "そうです" []).map (·.pattern)) = ["～です", "～そうです"] ∧
    strContains "そうです" "です" = true ∧ ("です" : String) ≠ "そうです" := by
  refine ⟨by decide, by decide, by decide⟩

/-- C1 amended: the suppression pairs the cascade actually guards.  The
generic ～て entry is never emitted together with ～ています, ～ている,
～てる, ～てもいい or ～てください; ～ませんか suppresses ～ません;
～ました and ～たい suppress ～た; the obligation form suppresses ～ない;
and ～でした suppresses ～です.  (Strict-containment suppression is not
global: そうです/です, でした/た and ています/ます can co-occur, per the
counterexample.) -/
theorem C1_amended (gp : List GrammarPatternDef) (text : String) (tokens : List Token) :
    (¬("～ています" ∈ (detect_patterns gp text tokens).map (·.pattern) ∧
       "～て" ∈ (detect_patterns gp text tokens).map (·.pattern))) ∧
    (¬("～ている" ∈ (detect_patterns gp text tokens).map (·.pattern) ∧
       "～て" ∈ (detect_patterns gp text tokens).map (·.pattern))) ∧
    (¬("～てる" ∈ (detect_patterns gp text tokens).map (·.pattern) ∧
       "～て" ∈ (detect_patterns gp text tokens).map (·.pattern))) ∧
    (¬("～てもいい" ∈ (detect_patterns gp text tokens).map (·.pattern) ∧
       "～て" ∈ (detect_patterns gp text tokens).map (·.pattern))) ∧
    (¬("～てください" ∈ (detect_patterns gp text tokens).map (·.pattern) ∧
       "～て" ∈ (detect_patterns gp text tokens).map (·.pattern))) ∧
    (¬("～ませんか" ∈ (detect_patterns gp text tokens).map (·.pattern) ∧
       "～ません" ∈ (detect_patterns gp text tokens).map (·.pattern))) ∧
    (¬("～ました" ∈ (detect_patterns gp text tokens).map (·.pattern) ∧
       "～た" ∈ (detect_patterns gp text tokens).map (·.pattern))) ∧
    (¬("～たい" ∈ (detect_patterns gp text tokens).map (·.pattern) ∧
       "～た" ∈ (detect_patterns gp text tokens).map (·.pattern))) ∧
    (¬("～なければならない" ∈ (detect_patterns gp text tokens).map (·.pattern) ∧
       "～ない" ∈ (detect_patterns gp text tokens).map (·.pattern))) ∧
    (¬("～でした" ∈ (detect_patterns gp text tokens).map (·.pattern) ∧
       "～です" ∈ (detect_patterns gp text tokens).map (·.pattern))) := by
  refine ⟨?_, ?_, ?_, ?_, ?_, ?_, ?_, ?_, ?_, ?_⟩ <;> rintro ⟨h1, h2⟩
  · rw [mem_detect_iff_cascade (by decide) (by decide), cascade_mem_teimasu] at h1
    rw [mem_detect_iff_cascade (by decide) (by decide), cascade_mem_te] at h2
    simp_all
  · rw [mem_detect_iff_cascade (by decide) (by decide), cascade_mem_teiru] at h1
    rw [mem_detect_iff_cascade (by decide) (by decide), cascade_mem_te] at h2
    simp_all
  · rw [mem_detect_iff_cascade (by decide) (by decide), cascade_mem_teru] at h1
    rw [mem_detect_iff_cascade (by decide) (by decide), cascade_mem_te] at h2
    simp_all
  · rw [mem_detect_iff_cascade (by decide) (by decide), cascade_mem_temoii] at h1
    rw [mem_detect_iff_cascade (by decide) (by decide), cascade_mem_te] at h2
    rcases h1 with h1 | h1 <;> simp_all
  · rw [mem_detect_iff_cascade (by decide) (by decide), cascade_mem_tekudasai] at h1
    rw [mem_detect_iff_cascade (by decide) (by decide), cascade_mem_te] at h2
    rcases h1 with h1 | h1 <;> simp_all
  · rw [mem_detect_iff_cascade (by decide) (by decide), cascade_mem_masenka] at h1
    rw [mem_detect_iff_cascade (by decide) (by decide), cascade_mem_masen] at h2
    simp_all
  · rw [mem_detect_iff_cascade (by decide) (by decide), cascade_mem_mashita] at h1
    rw [mem_detect_iff_cascade (by decide) (by decide), cascade_mem_ta] at h2
    simp_all
  · rw [mem_detect_iff_cascade (by decide) (by decide), cascade_mem_tai] at h1
    rw [mem_detect_iff_cascade (by decide) (by decide), cascade_mem_ta] at h2
    simp_all
  · rw [mem_detect_iff_cascade (by decide) (by decide), cascade_mem_obligation] at h1
    rw [mem_detect_iff_cascade (by decide) (by decide), cascade_mem_nai] at h2
    rcases h1 with h1 | h1 <;> simp_all
  · rw [mem_detect_iff_cascade (by decide) (by decide), cascade_mem_deshita] at h1
    rw [mem_detect_iff_cascade (by decide) (by decide), cascade_mem_desu] at h2
    simp_all

/-- C5: on 私は日本語を勉強しています (for any token list) the detector
emits the progressive-polite ～ています entry and emits neither the
generic conjunctive ～て entry nor the plain continuous ～ている entry. -/
theorem C5_teimasu_scenario (gp : List GrammarPatternDef) (tokens : List Token) :
    ("～ています" ∈ (detect_patterns gp "私は日本語を勉強しています" tokens).map (·.pattern)) ∧
    ("～て" ∉ (detect_patterns gp "私は日本語を勉強しています" tokens).map (·.pattern)) ∧
    ("～ている" ∉ (detect_patterns gp "私は日本語を勉強しています" tokens).map (·.pattern)) := by
  refine ⟨?_, ?_, ?_⟩
  · rw [mem_detect_iff_cascade (by decide) (by decide), cascade_mem_teimasu]
    decide
  · rw [mem_detect_iff_cascade (by decide) (by decide), cascade_mem_te]
    decide
  · rw [mem_detect_iff_cascade (by decide) (by decide), cascade_mem_teiru]
    decide

/-- C8 counterexample: when the tokenizer emits よ, ね and よね all tagged
as particles on a text containing よね, the combined-particle override is
skipped (よね was already seen in the token pass) and the standalone よ and
ね entries survive, contradicting the claim. -/
theorem C8_counterexample :
    ((detect_particles
        [⟨"よ", "よ", "助詞", "よ", "", []⟩,
         ⟨"ね", "ね", "助詞", "ね", "", []⟩,
         ⟨"よね", "よね", "助詞", "よね", "", []⟩]
        "いいよね").map (·.pattern)) = ["よ", "ね", "よね"] := by decide

/-- C8 amended: if the text contains よね and no token is a particle with
surface よね, then detect_particles emits the combined よね entry and no
standalone よ or ね entry. -/
theorem C8_amended (text : String) (tokens : List Token)
    (h1 : strContains text "よね" = true)
    (h2 : ∀ t ∈ tokens, ¬(isParticlePos t.partOfSpeech = true ∧ t.surface = "よね")) :
    ("よね" ∈ (detect_particles tokens text).map (·.pattern)) ∧
    ("よ" ∉ (detect_particles tokens text).map (·.pattern)) ∧
    ("ね" ∉ (detect_particles tokens text).map (·.pattern)) := by
  have hseen : "よね" ∉ (tokens.foldl (particleStep text) ([], [])).2 :=
    foldl_particle_seen_not text tokens "よね" [] [] (by simp) h2
  have hcond : (strContains text "よね" &&
      !((tokens.foldl (particleStep text) ([], [])).2.contains "よね")) = true := by
    simp [h1, List.contains]
    simpa using hseen
  unfold detect_particles
  simp only
  rw [if_pos hcond]
  rcases hyl : lookupParticle "よね" with _ | info
  · exact absurd hyl (by decide)
  · refine ⟨?_, ?_, ?_⟩
    · refine List.mem_map.2 ⟨mkYoneEntry info, ?_, rfl⟩
      refine List.mem_filter.2 ⟨List.mem_append.2 (Or.inr (by simp)), by simp [mkYoneEntry]⟩
    · intro hmem
      rcases List.mem_map.1 hmem with ⟨e, he, hpe⟩
      have := (List.mem_filter.1 he).2
      rw [hpe] at this
      simp at this
    · intro hmem
      rcases List.mem_map.1 hmem with ⟨e, he, hpe⟩
      have := (List.mem_filter.1 he).2
      rw [hpe] at this
      simp at this

/-- C8 amended witness: on text いいよね with no tokens the combined よね
entry is emitted and no standalone よ or ね entry is. -/
theorem C8_amended_witness :
    ("よね" ∈ (detect_particles [] "いいよね").map (·.pattern)) ∧
    ("よ" ∉ (detect_particles [] "いいよね").map (·.pattern)) ∧
    ("ね" ∉ (detect_particles [] "いいよね").map (·.pattern)) :=
  C8_amended "いいよね" [] (by decide) (by simp)

/-- Is the level of the entry (defaulting to Unknown) one of the six keys of
`level_counts`? -/
def validLevel (e : VEntry) : Bool := levelKeys.contains (levelOf e)

theorem validLevel_cases {e : VEntry} (h : validLevel e = true) :
    levelOf e = "N5" ∨ levelOf e = "N4" ∨ levelOf e = "N3" ∨
    levelOf e = "N2" ∨ levelOf e = "N1" ∨ levelOf e = "Unknown" := by
  simpa [validLevel, levelKeys, List.contains] using h

theorem tally_aux (vocabulary : List VEntry) (h : ∀ x ∈ vocabulary, validLevel x = true) :
    ∀ a b c d e f : Nat,
      ∃ a' b' c' d' e' f' : Nat,
        (vocabulary.foldlM (fun counts x => bumpCount counts (levelOf x))
            [("N5", a), ("N4", b), ("N3", c), ("N2", d), ("N1", e), ("Unknown", f)]) =
          .ok [("N5", a'), ("N4", b'), ("N3", c'), ("N2", d'), ("N1", e'), ("Unknown", f')] ∧
        e' = e + (vocabulary.filter (fun x => levelOf x == "N1")).length ∧
        a' + b' + c' + d' + e' + f' = a + b + c + d + e + f + vocabulary.length := by
  induction vocabulary with
  | nil => intro a b c d e f; exact ⟨a, b, c, d, e, f, rfl, by simp, by simp⟩
  | cons hd tl ih =>
      intro a b c d e f
      have hhd := validLevel_cases (h hd (by simp))
      have htl : ∀ x ∈ tl, validLevel x = true := fun x hx => h x (by simp [hx])
      rcases hhd with hv | hv | hv | hv | hv | hv
      · simp only [List.foldlM_cons, hv]
        have hb : bumpCount [("N5", a), ("N4", b), ("N3", c), ("N2", d), ("N1", e), ("Unknown", f)] "N5" =
            Except.ok [("N5", a + 1), ("N4", b), ("N3", c), ("N2", d), ("N1", e), ("Unknown", f)] := by simp [bumpCount]
        rw [hb]
        obtain ⟨a', b', c', d', e', f', heq, hn1, hsum⟩ := ih htl (a + 1) b c d e f
        refine ⟨a', b', c', d', e', f', ?_, ?_, ?_⟩
        · exact heq
        · simp [hv] at hn1 ⊢; omega
        · simp at hsum ⊢; omega
      · simp only [List.foldlM_cons, hv]
        have hb : bumpCount [("N5", a), ("N4", b), ("N3", c), ("N2", d), ("N1", e), ("Unknown", f)] "N4" =
            Except.ok [("N5", a), ("N4", b + 1), ("N3", c), ("N2", d), ("N1", e), ("Unknown", f)] := by simp [bumpCount]
        rw [hb]
        obtain ⟨a', b', c', d', e', f', heq, hn1, hsum⟩ := ih htl a (b + 1) c d e f
        refine ⟨a', b', c', d', e', f', ?_, ?_, ?_⟩
        · exact heq
        · simp [hv] at hn1 ⊢; omega
        · simp at hsum ⊢; omega
      · simp only [List.foldlM_cons, hv]
        have hb : bumpCount [("N5", a), ("N4", b), ("N3", c), ("N2", d), ("N1", e), ("Unknown", f)] "N3" =
            Except.ok [("N5", a), ("N4", b), ("N3", c + 1), ("N2", d), ("N1", e), ("Unknown", f)] := by simp [bumpCount]
        rw [hb]
        obtain ⟨a', b', c', d', e', f', heq, hn1, hsum⟩ := ih htl a b (c + 1) d e f
        refine ⟨a', b', c', d', e', f', ?_, ?_, ?_⟩
        · exact heq
        · simp [hv] at hn1 ⊢; omega
        · simp at hsum ⊢; omega
      · simp only [List.foldlM_cons, hv]
        have hb : bumpCount [("N5", a), ("N4", b), ("N3", c), ("N2", d), ("N1", e), ("Unknown", f)] "N2" =
            Except.ok [("N5", a), ("N4", b), ("N3", c), ("N2", d + 1), ("N1", e), ("Unknown", f)] := by simp [bumpCount]
        rw [hb]
        obtain ⟨a', b', c', d', e', f', heq, hn1, hsum⟩ := ih htl a b c (d + 1) e f
        refine ⟨a', b', c', d', e', f', ?_, ?_, ?_⟩
        · exact heq
        · simp [hv] at hn1 ⊢; omega
        · simp at hsum ⊢; omega
      · simp only [List.foldlM_cons, hv]
        have hb : bumpCount [("N5", a), ("N4", b), ("N3", c), ("N2", d), ("N1", e), ("Unknown", f)] "N1" =
            Except.ok [("N5", a), ("N4", b), ("N3", c), ("N2", d), ("N1", e + 1), ("Unknown", f)] := by simp [bumpCount]
        rw [hb]
        obtain ⟨a', b', c', d', e', f', heq, hn1, hsum⟩ := ih htl a b c d (e + 1) f
        refine ⟨a', b', c', d', e', f', ?_, ?_, ?_⟩
        · exact heq
        · simp [hv] at hn1 ⊢; omega
        · simp at hsum ⊢; omega
      · simp only [List.foldlM_cons, hv]
        have hb : bumpCount [("N5", a), ("N4", b), ("N3", c), ("N2", d), ("N1", e), ("Unknown", f)] "Unknown" =
            Except.ok [("N5", a), ("N4", b), ("N3", c), ("N2", d), ("N1", e), ("Unknown", f + 1)] := by simp [bumpCount]
        rw [hb]
        obtain ⟨a', b', c', d', e', f', heq, hn1, hsum⟩ := ih htl a b c d e (f + 1)
        refine ⟨a', b', c', d', e', f', ?_, ?_, ?_⟩
        · exact heq
        · simp [hv] at hn1 ⊢; omega
        · simp at hsum ⊢; omega

theorem bump_shape (k : String) (hk : levelKeys.contains k = true) (a b c d e f : Nat) :
    ∃ a1 b1 c1 d1 e1 f1 : Nat,
      bumpCount [("N5", a), ("N4", b), ("N3", c), ("N2", d), ("N1", e), ("Unknown", f)] k =
        .ok [("N5", a1), ("N4", b1), ("N3", c1), ("N2", d1), ("N1", e1), ("Unknown", f1)] := by
  have : k = "N5" ∨ k = "N4" ∨ k = "N3" ∨ k = "N2" ∨ k = "N1" ∨ k = "Unknown" := by
    simpa [levelKeys, List.contains] using hk
  rcases this with hv | hv | hv | hv | hv | hv <;> subst hv
  · exact ⟨a + 1, b, c, d, e, f, by simp [bumpCount]⟩
  · exact ⟨a, b + 1, c, d, e, f, by simp [bumpCount]⟩
  · exact ⟨a, b, c + 1, d, e, f, by simp [bumpCount]⟩
  · exact ⟨a, b, c, d + 1, e, f, by simp [bumpCount]⟩
  · exact ⟨a, b, c, d, e + 1, f, by simp [bumpCount]⟩
  · exact ⟨a, b, c, d, e, f + 1, by simp [bumpCount]⟩

theorem tally_err_aux (vocabulary : List VEntry)
    (hbad : ∃ x ∈ vocabulary, validLevel x = false) :
    ∀ a b c d e f : Nat, ∃ msg,
      (vocabulary.foldlM (fun counts x => bumpCount counts (levelOf x))
          [("N5", a), ("N4", b), ("N3", c), ("N2", d), ("N1", e), ("Unknown", f)]) =
        .error msg := by
  induction vocabulary with
  | nil => simp at hbad
  | cons hd tl ih =>
      intro a b c d e f
      by_cases hhd : validLevel hd = true
      · have hbad' : ∃ x ∈ tl, validLevel x = false := by
          rcases hbad with ⟨x, hx, hfx⟩
          rcases List.mem_cons.1 hx with h | h
          · subst h; rw [hhd] at hfx; cases hfx
          · exact ⟨x, h, hfx⟩
        obtain ⟨a1, b1, c1, d1, e1, f1, hb⟩ :=
          bump_shape (levelOf hd) (by simpa [validLevel] using hhd) a b c d e f
        rw [List.foldlM_cons, hb]
        exact ih hbad' a1 b1 c1 d1 e1 f1
      · have hnk : levelKeys.contains (levelOf hd) = false := by
          simpa [validLevel] using hhd
        have hb : bumpCount [("N5", a), ("N4", b), ("N3", c), ("N2", d), ("N1", e), ("Unknown", f)]
            (levelOf hd) = .error ("KeyError: " ++ levelOf hd) := by
          unfold bumpCount
          rw [if_neg]
          intro hany
          simp at hany
          rcases hany with h | h | h | h | h | h <;> rw [← h] at hnk <;>
            exact absurd hnk (by decide)
        rw [List.foldlM_cons, hb]
        exact ⟨_, rfl⟩

/-- C4: a single N1 vocabulary entry forces the sentence tier to N1,
whatever the other (valid-tier) entries and whatever the tokens. -/
theorem C4_n1_override (tokens : List Token) (vocabulary : List VEntry)
    (hvalid : ∀ x ∈ vocabulary, validLevel x = true)
    (hn1 : ∃ x ∈ vocabulary, levelOf x = "N1") :
    classify_sentence tokens vocabulary = .ok "N1" := by
  obtain ⟨a', b', c', d', e', f', heq, hcount, hsum⟩ := tally_aux vocabulary hvalid 0 0 0 0 0 0
  have hlen : 1 ≤ (vocabulary.filter (fun x => levelOf x == "N1")).length := by
    obtain ⟨x, hx, hlx⟩ := hn1
    exact List.length_pos_of_mem (List.mem_filter.2 ⟨hx, by simp [hlx]⟩)
  have he' : 1 ≤ e' := by omega
  unfold classify_sentence tallyLevels init_counts
  rw [heq]
  have hsum0 : ((([("N5", a'), ("N4", b'), ("N3", c'), ("N2", d'), ("N1", e'), ("Unknown", f')].map
      (·.2)).sum == 0) : Bool) = false := by
    simp
    omega
  have hcnt : countOf [("N5", a'), ("N4", b'), ("N3", c'), ("N2", d'), ("N1", e'), ("Unknown", f')]
      "N1" = e' := by simp [countOf]
  simp only [hsum0, hcnt, Bool.false_eq_true, if_false]
  rw [if_pos (show e' > 0 by omega)]

/-- C4 witness: the two-entry vocabulary N1 + N5 classifies as N1. -/
theorem C4_n1_override_witness :
    classify_sentence [] [⟨some "N1"⟩, ⟨some "N5"⟩] = .ok "N1" :=
  C4_n1_override [] [⟨some "N1"⟩, ⟨some "N5"⟩] (by decide) ⟨⟨some "N1"⟩, by simp, rfl⟩

/-- C9: classify_sentence returns normally when each jlptLevel
value (defaulting to Unknown) is one of the six level keys, and the tally
raises KeyError when some entry carries any other value. -/
theorem C9_tally_level_safety (tokens : List Token) (vocabulary : List VEntry) :
    ((∀ x ∈ vocabulary, validLevel x = true) →
      ∃ lv, classify_sentence tokens vocabulary = .ok lv) ∧
    ((∃ x ∈ vocabulary, validLevel x = false) →
      ∃ msg, classify_sentence tokens vocabulary = .error msg) := by
  constructor
  · intro hvalid
    obtain ⟨a', b', c', d', e', f', heq, -, -⟩ := tally_aux vocabulary hvalid 0 0 0 0 0 0
    unfold classify_sentence tallyLevels init_counts
    rw [heq]
    simp only []
    split_ifs <;> exact ⟨_, rfl⟩
  · intro hbad
    obtain ⟨msg, herr⟩ := tally_err_aux vocabulary hbad 0 0 0 0 0 0
    unfold classify_sentence tallyLevels init_counts
    rw [herr]
    exact ⟨msg, rfl⟩

/-- C9 witness: an all-valid vocabulary classifies normally; a vocabulary
with jlptLevel "N6" raises KeyError. -/
theorem C9_tally_level_safety_witness :
    (∃ lv, classify_sentence [] [⟨some "N5"⟩] = .ok lv) ∧
    (∃ msg, classify_sentence [] [⟨some "N6"⟩] = .error msg) :=
  ⟨(C9_tally_level_safety [] [⟨some "N5"⟩]).1 (by decide),
   (C9_tally_level_safety [] [⟨some "N6"⟩]).2 ⟨⟨some "N6"⟩, by simp, by decide⟩⟩

/-- C2: evaluating the source call `classify_word(word, base_form=word)`
under CPython binding raises TypeError, because the definition of
classify_word has no base_form parameter. -/
theorem C2_classify_word_call_type_error :
    call_classify_word (fun _ => []) ["私"] [("base_form", "私")] =
      .error "TypeError: classify_word() got an unexpected keyword argument" ∧
    classify_word (fun lv => if lv == "N5" then ["犬"] else if lv == "N1" then ["犬"] else [])
      "犬" = "N5" ∧
    classify_word (fun _ => []) "犬" = "Unknown" := ⟨rfl, rfl, rfl⟩

/-- C6: on any token list with at least one surviving content word — here
the single noun 私 — extract_vocabulary raises the TypeError from its
classify_word call instead of returning a (capped, deduplicated) list. -/
theorem C6_extract_vocabulary_raises :
    extract_vocabulary (fun _ => []) (fun _ => "gloss")
      [⟨"私", "わたし", "名詞", "私", "", []⟩] =
      .error "TypeError: classify_word() got an unexpected keyword argument" := rfl

/-- C7 counterexample: with the word in no local source, the dictionary
service (Jisho) able to answer and the machine-translation service (DeepL)
configured and able to answer, the code returns the machine translation —
the specified order (remote dictionary before machine translation), embodied
by resolve_spec_order, would return the dictionary gloss. -/
theorem C7_counterexample :
    (translate_to_french (fun _ => none) true (fun _ => some "traduction-automatique")
        (fun _ => some "dictionary-gloss") "Q" true ⟨[], false⟩).1 = "traduction-automatique" ∧
    (resolve_spec_order (fun _ => none) true (fun _ => some "traduction-automatique")
        (fun _ => some "dictionary-gloss") "Q" true ⟨[], false⟩).1 = "dictionary-gloss (EN)" ∧
    ("traduction-automatique" : String) ≠ "dictionary-gloss (EN)" :=
  ⟨rfl, rfl, by decide⟩

/-- C7 amended: the resolver tries, in order, the priority table
(COMMON_WORDS_FR), the cache, the static dictionary, the
machine-translation service (DeepL, when configured), the remote
dictionary service (Jisho, when enabled), then the fixed placeholder;
a later source is consulted only when every earlier one failed (stage 4
also shows the result is independent of the Jisho oracle when DeepL
answers). -/
theorem C7_amended (vocab_dict : String → Option String) (dcfg : Bool)
    (deepl jisho jisho2 : String → Option String) (word : String) (uj : Bool)
    (st : TransState) :
    (∀ t, pyDictLookup COMMON_WORDS_FR word = some t →
        translate_to_french vocab_dict dcfg deepl jisho word uj st = (t, st)) ∧
    (pyDictLookup COMMON_WORDS_FR word = none →
      ∀ t, pyDictLookup st.cache word = some t →
        translate_to_french vocab_dict dcfg deepl jisho word uj st = (t, st)) ∧
    (pyDictLookup COMMON_WORDS_FR word = none → pyDictLookup st.cache word = none →
      ∀ t, vocab_dict word = some t →
        translate_to_french vocab_dict dcfg deepl jisho word uj st =
          (t, ⟨st.cache ++ [(word, t)], true⟩)) ∧
    (pyDictLookup COMMON_WORDS_FR word = none → pyDictLookup st.cache word = none →
      vocab_dict word = none → dcfg = true → ∀ t, deepl word = some t →
        translate_to_french vocab_dict dcfg deepl jisho word uj st =
          (t, ⟨st.cache ++ [(word, t)], true⟩) ∧
        translate_to_french vocab_dict dcfg deepl jisho word uj st =
          translate_to_french vocab_dict dcfg deepl jisho2 word uj st) ∧
    (pyDictLookup COMMON_WORDS_FR word = none → pyDictLookup st.cache word = none →
      vocab_dict word = none → (if dcfg then deepl word else none) = none → uj = true →
      ∀ t, jisho word = some t →
        translate_to_french vocab_dict dcfg deepl jisho word uj st =
          (t ++ " (EN)", ⟨st.cache ++ [(word, t ++ " (EN)")], true⟩)) ∧
    (pyDictLookup COMMON_WORDS_FR word = none → pyDictLookup st.cache word = none →
      vocab_dict word = none → (if dcfg then deepl word else none) = none →
      (if uj then jisho word else none) = none →
        translate_to_french vocab_dict dcfg deepl jisho word uj st =
          ("[Traduction manquante]", st)) := by
  refine ⟨?_, ?_, ?_, ?_, ?_, ?_⟩
  · intro t h1
    simp [translate_to_french, h1]
  · intro h1 t h2
    simp [translate_to_french, h1, h2]
  · intro h1 h2 t h3
    simp [translate_to_french, h1, h2, h3]
  · intro h1 h2 h3 h4 t h5
    subst h4
    exact ⟨by simp [translate_to_french, h1, h2, h3, h5],
           by simp [translate_to_french, h1, h2, h3, h5]⟩
  · intro h1 h2 h3 h4 h5 t h6
    subst h5
    simp [translate_to_french, h1, h2, h3, h4, h6]
  · intro h1 h2 h3 h4 h5
    simp [translate_to_french, h1, h2, h3, h4, h5]

/-- C7 amended witness: a word absent from every local source with both
network services able to answer resolves to the DeepL gloss. -/
theorem C7_amended_witness :
    translate_to_french (fun _ => none) true (fun _ => some "mt") (fun _ => some "js")
      "Q" true ⟨[], false⟩ = ("mt", ⟨[("Q", "mt")], true⟩) := by
  have h := (C7_amended (fun _ => none) true (fun _ => some "mt") (fun _ => some "js")
    (fun _ => some "js") "Q" true ⟨[], false⟩).2.2.2.1
  exact (h rfl rfl rfl rfl "mt" rfl).1

/-- C1 amended witness: on 私は日本語を勉強しています the ～ています entry is
present, so the ～て entry is absent. -/
theorem C1_amended_witness :
    "～て" ∉ (detect_patterns [] "私は日本語を勉強しています" []).map (·.pattern) := by
  intro hm
  exact (C1_amended [] "私は日本語を勉強しています" []).1 ⟨by decide, hm⟩

/-- C3 witness: even the empty text yields a non-empty result (the
fallback entry). -/
theorem C3_detector_nonempty_witness : detect_patterns [] "" [] ≠ [] :=
  C3_detector_nonempty [] "" []

/-- C5 witness: the scenario instantiated with the empty token list. -/
theorem C5_teimasu_scenario_witness :
    ("～ています" ∈ (detect_patterns [] "私は日本語を勉強しています" []).map (·.pattern)) ∧
    ("～て" ∉ (detect_patterns [] "私は日本語を勉強しています" []).map (·.pattern)) ∧
    ("～ている" ∉ (detect_patterns [] "私は日本語を勉強しています" []).map (·.pattern)) :=
  C5_teimasu_scenario [] []
